import Mathlib

/-!
PointPillars detection: preprocessing and detection decoding.

A shallow embedding of
`modules/perception/lidar/lib/detection/lidar_point_pillars/point_pillars_detection.cc`.

* `float` and `double` values are elements of a linearly ordered field `α`
  (exact arithmetic, no rounding); the libm functions and `M_PI` the source
  calls are the fields of `FloatMath α`, instantiated on `ℝ` by `realMath`.
* `std::vector` and `std::deque` are lists; `vector::at` returns `none`
  where C++ throws `std::out_of_range`.
* `int` values are `Int`; widths of records are `Nat`. Counts of points are
  not bounded; the one 32-bit product that sizes an allocation (line 171) is
  reduced by `toInt32`.
* Code outside the file (Eigen, the point cloud containers, the object pool,
  the inference engine, the down-sampling helpers) is either written out from
  its documented meaning or taken as a parameter (`Env`, `TypeTables`).
-/

namespace apollo.perception.lidar

/-! ## Numeric environment -/

/-- The constants and libm functions used by the source (`M_PI`, `sinf`,
`cosf`, `std::atan2`), over the number type `α`. `atan2 y x` takes its
arguments in the order of the C function. -/
structure FloatMath (α : Type) where
  M_PI : α
  sinf : α → α
  cosf : α → α
  atan2 : α → α → α

/-- The real-number reading of `FloatMath`: `atan2 y x` is the argument of the
complex number `x + y i`, in `(-π, π]`, and `0` at the origin. It agrees with
the `float` functions up to rounding, except at the branch cut of `atan2`:
there the rounded sine decides the sign, and the `float` code can land on the
other side. Which end of an interval of headings is attained is therefore
not read off this instance. -/
noncomputable def realMath : FloatMath ℝ where
  M_PI := Real.pi
  sinf := Real.sin
  cosf := Real.cos
  atan2 := fun y x => Complex.arg ⟨x, y⟩

/-! ## Eigen: vectors, quaternions, affine transforms -/

/-- Three-vector (`Eigen::Vector3f`, `Eigen::Vector3d`). -/
structure Vector3 (α : Type) where
  x : α
  y : α
  z : α
deriving DecidableEq

/-- Row-major 3x3 matrix (`Eigen::Matrix3f`). -/
structure Matrix3 (α : Type) where
  m00 : α
  m01 : α
  m02 : α
  m10 : α
  m11 : α
  m12 : α
  m20 : α
  m21 : α
  m22 : α
deriving DecidableEq

/-- Quaternion with scalar part `w` (`Eigen::Quaternionf`). -/
structure Quaternion (α : Type) where
  w : α
  x : α
  y : α
  z : α
deriving DecidableEq

/-- Affine transform: linear part and translation (`Eigen::Affine3f`,
`Eigen::Affine3d`). -/
structure Affine3 (α : Type) where
  linear : Matrix3 α
  translation : Vector3 α
deriving DecidableEq

section Eigen

variable {α : Type} [LinearOrderedField α]

/-- Matrix times vector. -/
def Matrix3.mulVec (m : Matrix3 α) (v : Vector3 α) : Vector3 α :=
  { x := m.m00 * v.x + m.m01 * v.y + m.m02 * v.z
    y := m.m10 * v.x + m.m11 * v.y + m.m12 * v.z
    z := m.m20 * v.x + m.m21 * v.y + m.m22 * v.z }

/-- Determinant of a 3x3 matrix. -/
def Matrix3.det (m : Matrix3 α) : α :=
  m.m00 * (m.m11 * m.m22 - m.m12 * m.m21)
    - m.m01 * (m.m10 * m.m22 - m.m12 * m.m20)
    + m.m02 * (m.m10 * m.m21 - m.m11 * m.m20)

/-- Inverse of a 3x3 matrix by cofactors. -/
def Matrix3.inverse (m : Matrix3 α) : Matrix3 α :=
  let d := m.det
  { m00 := (m.m11 * m.m22 - m.m12 * m.m21) / d
    m01 := (m.m02 * m.m21 - m.m01 * m.m22) / d
    m02 := (m.m01 * m.m12 - m.m02 * m.m11) / d
    m10 := (m.m12 * m.m20 - m.m10 * m.m22) / d
    m11 := (m.m00 * m.m22 - m.m02 * m.m20) / d
    m12 := (m.m02 * m.m10 - m.m00 * m.m12) / d
    m20 := (m.m10 * m.m21 - m.m11 * m.m20) / d
    m21 := (m.m01 * m.m20 - m.m00 * m.m21) / d
    m22 := (m.m00 * m.m11 - m.m01 * m.m10) / d }

/-- Identity matrix. -/
def Matrix3.identity : Matrix3 α :=
  { m00 := 1, m01 := 0, m02 := 0, m10 := 0, m11 := 1, m12 := 0, m20 := 0, m21 := 0, m22 := 1 }

/-- Application of an affine transform to a point: `pose * v`. -/
def Affine3.apply (t : Affine3 α) (v : Vector3 α) : Vector3 α :=
  let r := t.linear.mulVec v
  { x := r.x + t.translation.x, y := r.y + t.translation.y, z := r.z + t.translation.z }

/-- Inverse of an affine transform (`Transform::inverse()`): the linear part is
inverted and the translation becomes `-(linear⁻¹ * translation)`. -/
def Affine3.inverse (t : Affine3 α) : Affine3 α :=
  let li := t.linear.inverse
  let r := li.mulVec t.translation
  { linear := li, translation := { x := -r.x, y := -r.y, z := -r.z } }

/-- Identity transform. -/
def Affine3.identity : Affine3 α :=
  { linear := Matrix3.identity, translation := { x := 0, y := 0, z := 0 } }

/-- Quaternion of `Eigen::AngleAxisf(angle, axis)`:
`w = cos(angle/2)`, vector part `sin(angle/2) * axis`. -/
def Quaternion.ofAngleAxis (m : FloatMath α) (angle : α) (axis : Vector3 α) : Quaternion α :=
  let ha := angle / 2
  { w := m.cosf ha, x := m.sinf ha * axis.x, y := m.sinf ha * axis.y, z := m.sinf ha * axis.z }

/-- Hamilton product of quaternions (`operator*`). -/
def Quaternion.mul (a b : Quaternion α) : Quaternion α :=
  { w := a.w * b.w - a.x * b.x - a.y * b.y - a.z * b.z
    x := a.w * b.x + a.x * b.w + a.y * b.z - a.z * b.y
    y := a.w * b.y + a.y * b.w + a.z * b.x - a.x * b.z
    z := a.w * b.z + a.z * b.w + a.x * b.y - a.y * b.x }

/-- Rotation matrix of a quaternion (`Quaternion::toRotationMatrix`). -/
def Quaternion.toRotationMatrix (q : Quaternion α) : Matrix3 α :=
  let tx := 2 * q.x
  let ty := 2 * q.y
  let tz := 2 * q.z
  let twx := tx * q.w
  let twy := ty * q.w
  let twz := tz * q.w
  let txx := tx * q.x
  let txy := ty * q.x
  let txz := tz * q.x
  let tyy := ty * q.y
  let tyz := tz * q.y
  let tzz := tz * q.z
  { m00 := 1 - (tyy + tzz), m01 := txy - twz, m02 := txz + twy
    m10 := txy + twz, m11 := 1 - (txx + tzz), m12 := tyz - twx
    m20 := txz - twy, m21 := tyz + twx, m22 := 1 - (txx + tyy) }

/-- Unit vectors `Vector3f::UnitX()`, `UnitY()`, `UnitZ()`. -/
def Vector3.UnitX : Vector3 α := { x := 1, y := 0, z := 0 }

/-- Unit vector along Y. -/
def Vector3.UnitY : Vector3 α := { x := 0, y := 1, z := 0 }

/-- Unit vector along Z. -/
def Vector3.UnitZ : Vector3 α := { x := 0, y := 0, z := 1 }

end Eigen

/-! ## Perception base types -/

/-- Point of a cloud (`base::PointF`, `base::PointD`): position and intensity. -/
structure Point (α : Type) where
  x : α
  y : α
  z : α
  intensity : α
deriving DecidableEq

/-- Sensor-frame cloud (`base::PointFCloud`): the points and, in a parallel
vector, the time offset of each point (`points_timestamp_`). -/
structure PointFCloud (α : Type) where
  points : List (Point α)
  points_timestamp : List α
deriving DecidableEq

/-- World-frame cloud (`base::PointDCloud`) as stored in the fusion buffer: the
points and the capture time of the cloud (`get_timestamp`). -/
structure PointDCloud (α : Type) where
  points : List (Point α)
  timestamp : α
deriving DecidableEq

/-- The sub-types named by the source (`base::ObjectSubType`). -/
inductive ObjectSubType where
  | UNKNOWN
  | UNKNOWN_MOVABLE
  | UNKNOWN_UNMOVABLE
  | CAR
  | TRUCK
  | BUS
  | CYCLIST
  | MOTORCYCLIST
  | PEDESTRIAN
  | TRAFFICCONE
deriving DecidableEq, Repr

/-- Modelled from the spec: `base::ObjectType`, `MAX_OBJECT_TYPE` and
`base::kSubType2TypeMap` are declared outside the file. The coarse class is
its integer value; the fixed subclass→class mapping is a total function. -/
structure TypeTables where
  MAX_OBJECT_TYPE : Nat
  kSubType2TypeMap : ObjectSubType → Nat

/-- The fields of `base::LidarObjectSupplement` written by `GetObjects`. -/
structure LidarObjectSupplement (α : Type) where
  is_orientation_ready : Bool
  num_points_in_roi : Nat
  on_use : Bool
  is_background : Bool
  cloud : List (Point α)
  cloud_world : List (Point α)
  raw_probs : List (List α)
  raw_classification_methods : List String
deriving DecidableEq

/-- The fields of `base::Object` written by `GetObjects`. -/
structure Object (α : Type) where
  id : Int
  theta : α
  direction : Vector3 α
  sub_type : ObjectSubType
  type : Nat
  type_probs : List α
  lidar_supplement : LidarObjectSupplement α
deriving DecidableEq

/-- The fields of `LidarFrame` used by `Detect`. A null `frame->cloud` is
`none`. -/
structure LidarFrame (α : Type) where
  cloud : Option (PointFCloud α)
  timestamp : α
  lidar2world_pose : Affine3 α
  segmented_objects : List (Object α)
deriving DecidableEq

/-- `PointPillarsDetection::GetObjectSubType`. -/
def GetObjectSubType (label : Int) : ObjectSubType :=
  match label with
  | 0 => ObjectSubType.BUS
  | 1 => ObjectSubType.CAR
  | 2 => ObjectSubType.UNKNOWN_MOVABLE
  | 3 => ObjectSubType.UNKNOWN_MOVABLE
  | 4 => ObjectSubType.TRUCK
  | 5 => ObjectSubType.UNKNOWN_UNMOVABLE
  | 6 => ObjectSubType.CYCLIST
  | 7 => ObjectSubType.MOTORCYCLIST
  | 8 => ObjectSubType.PEDESTRIAN
  | 9 => ObjectSubType.TRAFFICCONE
  | _ => ObjectSubType.UNKNOWN

/-- The gflags read by the source (`FLAGS_*`). The two record widths are
positive `int32` flags; they are natural numbers here. -/
structure Flags (α : Type) where
  enable_downsample_beams : Bool
  downsample_beams_factor : Int
  enable_downsample_pointcloud : Bool
  downsample_voxel_size_x : α
  downsample_voxel_size_y : α
  downsample_voxel_size_z : α
  enable_fuse_frames : Bool
  num_fuse_frames : Int
  fuse_time_interval : α
  enable_shuffle_points : Bool
  max_num_points : Int
  num_point_feature : Nat
  normalizing_factor : α
  num_output_box_feature : Nat

/-- Modelled from the spec: an object as `base::ObjectPool::BatchGet` hands it
out (the pool is outside the file); the spec asks for a freshly constructed
object, with empty corner lists and probability rows. -/
def Object.fresh {α : Type} [LinearOrderedField α] : Object α :=
  { id := -1
    theta := 0
    direction := { x := 1, y := 0, z := 0 }
    sub_type := ObjectSubType.UNKNOWN
    type := 0
    type_probs := []
    lidar_supplement :=
      { is_orientation_ready := false
        num_points_in_roi := 0
        on_use := false
        is_background := false
        cloud := []
        cloud_world := []
        raw_probs := []
        raw_classification_methods := [] } }

/-- The detector name pushed to `raw_classification_methods` (`Name()`,
declared in the header). -/
def Name : String := "PointPillarsDetection"

section Decoder

variable {α : Type} [LinearOrderedField α]

/-- The heading fix-up of `GetObjects` (lines 270-273):
`yaw += M_PI / 2; yaw = atan2(sinf(yaw), cosf(yaw)); yaw = -yaw`. -/
def GetObjects.fixYaw (m : FloatMath α) (yaw_raw : α) : α :=
  let yaw := yaw_raw + m.M_PI / 2
  let yaw := m.atan2 (m.sinf yaw) (m.cosf yaw)
  let yaw := -yaw
  yaw

/-- The box transform of `GetObjects` (lines 286-292): the quaternion
`AngleAxis(roll, X) * AngleAxis(pitch, Y) * AngleAxis(yaw, Z)` with
`roll = pitch = 0`, turned into a rotation matrix and composed with the
translation `(x, y, z)`. -/
def GetObjects.affine3f (m : FloatMath α) (x y z yaw : α) : Affine3 α :=
  let roll : α := 0
  let pitch : α := 0
  let quater :=
    ((Quaternion.ofAngleAxis m roll Vector3.UnitX).mul
      (Quaternion.ofAngleAxis m pitch Vector3.UnitY)).mul
      (Quaternion.ofAngleAxis m yaw Vector3.UnitZ)
  { linear := quater.toRotationMatrix, translation := { x := x, y := y, z := z } }

/-- The three nested loops of `GetObjects` (lines 293-313): for `vx` in
`{dx/2, -dx/2}`, `vy` in `{dy/2, -dy/2}`, `vz` in `{0, dz}` the sensor-frame
corner `affine3f * (vx, vy, vz)` (a `PointF`, intensity left at its default 0)
paired with the world-frame corner `pose * corner`. -/
def GetObjects.corners (affine3f pose : Affine3 α) (dx dy dz : α) :
    List (Point α × Point α) :=
  [dx / 2, -dx / 2].flatMap fun vx =>
    [dy / 2, -dy / 2].flatMap fun vy =>
      [0, dz].map fun vz =>
        let v3f := affine3f.apply { x := vx, y := vy, z := vz }
        let point : Point α := { x := v3f.x, y := v3f.y, z := v3f.z, intensity := 0 }
        let trans_point := pose.apply { x := point.x, y := point.y, z := point.z }
        let world_point : Point α :=
          { x := trans_point.x, y := trans_point.y, z := trans_point.z, intensity := 0 }
        (point, world_point)

/-- One iteration of the loop of `GetObjects` on `objects->at(i)`.
`Except.error o` is a `std::out_of_range` thrown by `detections->at` or
`labels->at`, with `o` the object as the iteration left it. An index of
`raw_probs.back()` beyond its size is undefined in C++; the write is dropped
here. -/
def GetObjects.decodeObject (m : FloatMath α) (F : Flags α) (T : TypeTables)
    (pose : Affine3 α) (detections : List α) (labels : List Int) (i : Nat)
    (object : Object α) : Except (Object α) (Object α) :=
  let object := { object with id := (i : Int) }
  let w := F.num_output_box_feature
  match detections[i * w + 0]?, detections[i * w + 1]?, detections[i * w + 2]?,
      detections[i * w + 4]?, detections[i * w + 3]?, detections[i * w + 5]?,
      detections[i * w + 6]? with
  | some x, some y, some z, some dx, some dy, some dz, some yaw_raw =>
    let yaw := GetObjects.fixYaw m yaw_raw
    let object :=
      { object with
        theta := yaw
        direction := { x := m.cosf yaw, y := m.sinf yaw, z := 0 } }
    let cs := GetObjects.corners (GetObjects.affine3f m x y z yaw) pose dx dy dz
    let sup := object.lidar_supplement
    let sup :=
      { sup with
        is_orientation_ready := true
        num_points_in_roi := 8
        on_use := true
        is_background := false
        cloud := sup.cloud ++ cs.map Prod.fst
        cloud_world := sup.cloud_world ++ cs.map Prod.snd
        raw_probs := sup.raw_probs ++ [List.replicate T.MAX_OBJECT_TYPE 0]
        raw_classification_methods := sup.raw_classification_methods ++ [Name] }
    let object := { object with lidar_supplement := sup }
    match labels[i]? with
    | some label =>
      let sub_type := GetObjectSubType label
      let type := T.kSubType2TypeMap sub_type
      let row := ((sup.raw_probs.getLast?).getD []).set type 1
      let sup := { sup with raw_probs := sup.raw_probs.dropLast ++ [row] }
      Except.ok
        { object with
          sub_type := sub_type
          type := type
          type_probs := row
          lidar_supplement := sup }
    | none => Except.error object
  | _, _, _, _, _, _, _ => Except.error object

/-- The `for` loop of `GetObjects` over the objects of the list: `finished`
holds the objects already decoded, the third argument those still to decode.
`Except.error objs` is an exception with `objs` the contents of `*objects`
when it was thrown. -/
def GetObjects.loop (decode : Nat → Object α → Except (Object α) (Object α)) :
    Nat → List (Object α) → List (Object α) → Except (List (Object α)) (List (Object α))
  | _, finished, [] => Except.ok finished
  | i, finished, object :: rest =>
    match decode i object with
    | Except.ok o => GetObjects.loop decode (i + 1) (finished ++ [o]) rest
    | Except.error o => Except.error (finished ++ o :: rest)

/-- `PointPillarsDetection::GetObjects`. The list `*objects` is cleared and
refilled by `BatchGet` with `num_objects` objects, so its previous contents do
not matter; the result is its final contents. -/
def GetObjects (m : FloatMath α) (F : Flags α) (T : TypeTables) (pose : Affine3 α)
    (detections : List α) (labels : List Int) :
    Except (List (Object α)) (List (Object α)) :=
  let num_objects := detections.length / F.num_output_box_feature
  let objects : List (Object α) := List.replicate num_objects Object.fresh
  GetObjects.loop (GetObjects.decodeObject m F T pose detections labels) 0 [] objects

end Decoder

/-! ## The detector and its collaborators -/

/-- The collaborators of `Detect` that live outside the file, for one call:
whether `cudaSetDevice` succeeds; `DownSamplePointCloudBeams` (`none` when it
returns `false`); the voxel-grid reduction (conversion to PCL, filter and
conversion back); `std::shuffle` with `std::default_random_engine(0)`; and
`PointPillars::DoInference`, returning the detections and the labels. -/
structure Env (α : Type) where
  cudaSetDevice : Bool
  DownSamplePointCloudBeams : PointFCloud α → Int → Option (PointFCloud α)
  DownSampleCloudByVoxelGrid : PointFCloud α → α → α → α → PointFCloud α
  shuffle : List Int → List Int
  DoInference : List α → Int → List α × List Int

/-- The state of a `PointPillarsDetection` that survives a call: the fusion
buffer `prev_world_clouds_`, oldest entry first. -/
structure PointPillarsDetection (α : Type) where
  prev_world_clouds_ : List (PointDCloud α)
deriving DecidableEq

/-- What a call of `Detect` leaves behind: `ret` is the returned value, or
`none` when an exception left the function; `frame` is the caller's frame after
the call (`none` for a null pointer); `self` the detector's state. -/
structure DetectResult (α : Type) where
  ret : Option Bool
  frame : Option (LidarFrame α)
  self : PointPillarsDetection α
deriving DecidableEq

section Detector

variable {α : Type} [LinearOrderedField α]

/-- Size of a cloud (`PointCloud::size`): the number of points. -/
def PointFCloud.size (c : PointFCloud α) : Nat := c.points.length

/-- Two-argument `push_back(point, timestamp)` of the attribute point cloud. -/
def PointFCloud.push_back (c : PointFCloud α) (pt : Point α) (timestamp : α) : PointFCloud α :=
  { points := c.points ++ [pt], points_timestamp := c.points_timestamp ++ [timestamp] }

/-- The copy constructor `PointFCloud(pc, indices)` of the point cloud
container: entry `k` of the copy is entry `indices[k]` of `pc`, point and time
offset. An index outside `pc` is undefined in C++; it reads a zero point here. -/
def PointFCloud.copyIndices (pc : PointFCloud α) (indices : List Int) : PointFCloud α :=
  { points := indices.map fun k =>
      (pc.points[k.toNat]?).getD { x := 0, y := 0, z := 0, intensity := 0 }
    points_timestamp := indices.map fun k => (pc.points_timestamp[k.toNat]?).getD 0 }

/-- `PointPillarsDetection::CloudToArray`: row `i` of the flat array gets
`x, y, z, intensity / normalizing_factor` and the time offset of point `i`. A
write beyond the array is undefined in C++; it is dropped here. -/
def CloudToArray (F : Flags α) (pc : PointFCloud α) (out_points_array : List α)
    (normalizing_factor : α) : List α :=
  (List.range pc.size).foldl
    (fun arr i =>
      match pc.points[i]? with
      | some point =>
        let arr := arr.set (i * F.num_point_feature + 0) point.x
        let arr := arr.set (i * F.num_point_feature + 1) point.y
        let arr := arr.set (i * F.num_point_feature + 2) point.z
        let arr := arr.set (i * F.num_point_feature + 3) (point.intensity / normalizing_factor)
        arr.set (i * F.num_point_feature + 4) ((pc.points_timestamp[i]?).getD 0)
      | none => arr)
    out_points_array

/-- `PointPillarsDetection::FuseCloud`: the buffered clouds are visited from the
back (`rbegin` to `rend`); every point is moved by the inverse of the current
pose and pushed with `delta_t`, the current timestamp minus the timestamp of
its cloud. `pose` and `timestamp` are read from `lidar_frame_ref_`. -/
def FuseCloud (pose : Affine3 α) (timestamp : α) (out_cloud : PointFCloud α)
    (fuse_clouds : List (PointDCloud α)) : PointFCloud α :=
  fuse_clouds.reverse.foldl
    (fun out iter =>
      let delta_t := timestamp - iter.timestamp
      iter.points.foldl
        (fun out point =>
          let trans_point := pose.inverse.apply { x := point.x, y := point.y, z := point.z }
          let pt : Point α :=
            { x := trans_point.x, y := trans_point.y, z := trans_point.z
              intensity := point.intensity }
          out.push_back pt delta_t)
        out)
    out_cloud

/-- `PointPillarsDetection::GenerateIndices`. A negative `size` makes the
`std::vector<int>` constructor throw: `none`. -/
def GenerateIndices (E : Env α) (start_index size : Int) (shuffle : Bool) : Option (List Int) :=
  if size < 0 then none
  else
    let indices := (List.range size.toNat).map fun k => start_index + (k : Int)
    some (if shuffle then E.shuffle indices else indices)

/-- The two down-sampling stages of `Detect` (lines 82-112). The result is the
cloud `cur_cloud_ptr_` points to and whether it still is the caller's
`frame->cloud` (no stage replaced the pointer). -/
def Detect.downsample (E : Env α) (F : Flags α) (original_cloud : PointFCloud α) :
    PointFCloud α × Bool :=
  let cur : PointFCloud α × Bool := (original_cloud, true)
  let cur :=
    if F.enable_downsample_beams then
      match E.DownSamplePointCloudBeams original_cloud F.downsample_beams_factor with
      | some downsample_beams_cloud => (downsample_beams_cloud, false)
      | none => cur
    else cur
  if F.enable_downsample_pointcloud then
    (E.DownSampleCloudByVoxelGrid cur.1 F.downsample_voxel_size_x F.downsample_voxel_size_y
      F.downsample_voxel_size_z, false)
  else cur

/-- Lines 119-120 of `Detect`: every time offset of the current cloud is set
to zero (`mutable_points_timestamp()->assign(size, 0.0)`). -/
def Detect.resetTimestamps (cur : PointFCloud α) : PointFCloud α :=
  { cur with points_timestamp := List.replicate cur.size 0 }

/-- The loop "before fusing" of `Detect` (lines 123-127): entries are popped
from the front while the front is older than `fuse_time_interval`. -/
def Detect.evictStale (timestamp fuse_time_interval : α) :
    List (PointDCloud α) → List (PointDCloud α)
  | [] => []
  | front :: rest =>
    if timestamp - front.timestamp > fuse_time_interval then
      Detect.evictStale timestamp fuse_time_interval rest
    else front :: rest

/-- Lines 129-142 of `Detect`: the current cloud moved to world coordinates,
stamped with the timestamp of the frame. -/
def Detect.toWorldCloud (pose : Affine3 α) (timestamp : α) (cur : PointFCloud α) :
    PointDCloud α :=
  { points := cur.points.map fun pt =>
      let trans_point := pose.apply { x := pt.x, y := pt.y, z := pt.z }
      { x := trans_point.x, y := trans_point.y, z := trans_point.z, intensity := pt.intensity }
    timestamp := timestamp }

/-- The loop "after fusing" of `Detect` (lines 151-154): entries are popped from
the front while the size is at least `num_fuse_frames - 1`. The loop is only
reached with `num_fuse_frames > 1`, where it stops on the empty deque. -/
def Detect.evictFull (num_fuse_frames : Int) : List (PointDCloud α) → List (PointDCloud α)
  | [] => []
  | front :: rest =>
    if ((front :: rest).length : Int) ≥ num_fuse_frames - 1 then
      Detect.evictFull num_fuse_frames rest
    else front :: rest

/-- What the fusion stage of `Detect` leaves: the current cloud, the point
count `num_points` and the fusion buffer. -/
structure FuseState (α : Type) where
  cloud : PointFCloud α
  num_points : Int
  prev_world_clouds : List (PointDCloud α)

/-- The fusion stage of `Detect` (lines 121-156), entered with the current
cloud after its time offsets were reset. -/
def Detect.fuse (F : Flags α) (pose : Affine3 α) (timestamp : α) (cur : PointFCloud α)
    (num_points : Int) (prev_world_clouds : List (PointDCloud α)) : FuseState α :=
  if F.enable_fuse_frames ∧ F.num_fuse_frames > 1 then
    let prev := Detect.evictStale timestamp F.fuse_time_interval prev_world_clouds
    let cur_world_cloud := Detect.toWorldCloud pose timestamp cur
    let num_points := prev.foldl (fun n c => n + (c.points.length : Int)) num_points
    let cur := FuseCloud pose timestamp cur prev
    let prev := Detect.evictFull F.num_fuse_frames prev
    { cloud := cur, num_points := num_points, prev_world_clouds := prev ++ [cur_world_cloud] }
  else
    { cloud := cur, num_points := num_points, prev_world_clouds := prev_world_clouds }

/-- The shuffle stage of `Detect` (lines 161-167): the cloud handed to
`CloudToArray` and the final `num_points`; `none` when `GenerateIndices`
throws. -/
def Detect.shuffle (E : Env α) (F : Flags α) (cur : PointFCloud α) (num_points : Int) :
    Option (PointFCloud α × Int) :=
  if F.enable_shuffle_points then
    let num_points := min num_points F.max_num_points
    match GenerateIndices E 0 num_points true with
    | some point_indices => some (cur.copyIndices point_indices, num_points)
    | none => none
  else some (cur, num_points)

/-- The value of an arithmetic result stored in a 32-bit `int`: the
representative in `[-2^31, 2^31)` modulo `2^32`. Signed overflow is undefined
in C++; this is what the usual targets compute. -/
def toInt32 (x : Int) : Int := (x + 2 ^ 31) % 2 ^ 32 - 2 ^ 31

/-- Line 171 of `Detect`: `new float[num_points * FLAGS_num_point_feature]()`.
The product of the two `int`s is a 32-bit `int`; a negative length makes `new`
throw (`none`), otherwise the array holds that many zeros. -/
def Detect.points_array (F : Flags α) (num_points : Int) : Option (List α) :=
  let length := toInt32 (num_points * (F.num_point_feature : Int))
  if length < 0 then none else some (List.replicate length.toNat 0)

/-- `PointPillarsDetection::Detect`. Timers and logging are left out. While no
down-sampling stage has replaced `cur_cloud_ptr_` it is the caller's
`frame->cloud`, so what the fusion stage does to the current cloud is done to
the frame. An exception (`GenerateIndices`, the allocation of line 171,
`GetObjects`) leaves the function with `ret = none`. -/
def Detect (m : FloatMath α) (T : TypeTables) (F : Flags α) (E : Env α)
    (self : PointPillarsDetection α) (frame : Option (LidarFrame α)) : DetectResult α :=
  match frame with
  | none => { ret := some false, frame := none, self := self }
  | some frame =>
    match frame.cloud with
    | none => { ret := some false, frame := some frame, self := self }
    | some original_cloud =>
      if original_cloud.size = 0 then
        { ret := some false, frame := some frame, self := self }
      else
        let frame := { frame with segmented_objects := [] }
        if E.cudaSetDevice = false then
          { ret := some false, frame := some frame, self := self }
        else
          let cur := Detect.downsample E F original_cloud
          let num_points : Int := (cur.1.size : Int)
          let fused := Detect.fuse F frame.lidar2world_pose frame.timestamp
            (Detect.resetTimestamps cur.1) num_points self.prev_world_clouds_
          let frame :=
            { frame with cloud := if cur.2 then some fused.cloud else some original_cloud }
          let self := { self with prev_world_clouds_ := fused.prev_world_clouds }
          match Detect.shuffle E F fused.cloud fused.num_points with
          | none => { ret := none, frame := some frame, self := self }
          | some (cloud, num_points) =>
            match Detect.points_array F num_points with
            | none => { ret := none, frame := some frame, self := self }
            | some points_array =>
              let points_array := CloudToArray F cloud points_array F.normalizing_factor
              let out := E.DoInference points_array num_points
              match GetObjects m F T frame.lidar2world_pose out.1 out.2 with
              | Except.ok objects =>
                { ret := some true
                  frame := some { frame with segmented_objects := objects }
                  self := self }
              | Except.error objects =>
                { ret := none
                  frame := some { frame with segmented_objects := objects }
                  self := self }

/-- The checks at the head of `Detect` (lines 52-76): the frame and its cloud
when the frame is not null, its cloud is not null and not empty, and
`cudaSetDevice` succeeds; `none` when `Detect` returns `false` there. Used to
state which calls reach the fusion stage. -/
def Detect.accepted (E : Env α) (frame : Option (LidarFrame α)) :
    Option (LidarFrame α × PointFCloud α) :=
  match frame with
  | none => none
  | some frame =>
    match frame.cloud with
    | none => none
    | some original_cloud =>
      if original_cloud.size = 0 then none
      else if E.cudaSetDevice = false then none
      else some (frame, original_cloud)

/-- The timestamps of the sweeps that pass the checks at the head of `Detect`,
in the order of the calls. -/
def Detect.sweepTimestamps (calls : List (Env α × Option (LidarFrame α))) : List α :=
  calls.filterMap fun call => (Detect.accepted call.1 call.2).map fun a => a.1.timestamp

/-- The commit step as the specification words it, second half: "evict from the
front until the buffer holds at most `max_fused_frames - 1` entries". Written
from the specification, to be compared with `Detect.evictFull`. -/
def specEvict (max_fused_frames : Int) : List (PointDCloud α) → List (PointDCloud α)
  | [] => []
  | front :: rest =>
    if ((front :: rest).length : Int) ≤ max_fused_frames - 1 then front :: rest
    else specEvict max_fused_frames rest

/-- The commit step as the specification words it: "push [the world-frame
projection] as a new buffer entry; then evict from the front until the buffer
holds at most `max_fused_frames - 1` entries". Written from the specification,
to be compared with what `Detect.fuse` does. -/
def specCommit (max_fused_frames : Int) (buffer : List (PointDCloud α))
    (entry : PointDCloud α) : List (PointDCloud α) :=
  specEvict max_fused_frames (buffer ++ [entry])

/-- A sequence of `Detect` calls on one detector, each with its collaborators
and its frame; the result is the detector's state after the last call. -/
def Detect.run (m : FloatMath α) (T : TypeTables) (F : Flags α) :
    PointPillarsDetection α → List (Env α × Option (LidarFrame α)) → PointPillarsDetection α
  | self, [] => self
  | self, call :: calls => Detect.run m T F (Detect m T F call.1 self call.2).self calls

end Detector

end apollo.perception.lidar

/-! ## Example inputs -/

namespace apollo.perception.lidar

/-- Flags with both record widths at their contract values (5 and 7), every
stage switched off. -/
def exampleFlags : Flags ℝ :=
  { enable_downsample_beams := false
    downsample_beams_factor := 1
    enable_downsample_pointcloud := false
    downsample_voxel_size_x := 1
    downsample_voxel_size_y := 1
    downsample_voxel_size_z := 1
    enable_fuse_frames := false
    num_fuse_frames := 1
    fuse_time_interval := 0
    enable_shuffle_points := false
    max_num_points := 0
    num_point_feature := 5
    normalizing_factor := 1
    num_output_box_feature := 7 }

/-- Type tables with six coarse classes (unknown, unknown movable, unknown
unmovable, pedestrian, bicycle, vehicle, numbered from 0). -/
def exampleTables : TypeTables :=
  { MAX_OBJECT_TYPE := 6
    kSubType2TypeMap := fun s =>
      match s with
      | ObjectSubType.UNKNOWN => 0
      | ObjectSubType.UNKNOWN_MOVABLE => 1
      | ObjectSubType.UNKNOWN_UNMOVABLE => 2
      | ObjectSubType.CAR => 5
      | ObjectSubType.TRUCK => 5
      | ObjectSubType.BUS => 5
      | ObjectSubType.CYCLIST => 4
      | ObjectSubType.MOTORCYCLIST => 4
      | ObjectSubType.PEDESTRIAN => 3
      | ObjectSubType.TRAFFICCONE => 2 }

/-- The example flags with fusion switched on, `num_fuse_frames = n` and
`fuse_time_interval = age`. -/
def fusionFlags (n : Int) (age : ℝ) : Flags ℝ :=
  { exampleFlags with enable_fuse_frames := true, num_fuse_frames := n, fuse_time_interval := age }

/-- Collaborators for the examples: the device is available, the beam filter
and the voxel filter return their input, the shuffle keeps the order and the
engine detects nothing. -/
def exampleEnv : Env ℝ :=
  { cudaSetDevice := true
    DownSamplePointCloudBeams := fun c _ => some c
    DownSampleCloudByVoxelGrid := fun c _ _ _ => c
    shuffle := fun l => l
    DoInference := fun _ _ => ([], []) }

/-- A cloud of one point, `(1, 0, 0)` with intensity 10. -/
def exampleCloud : PointFCloud ℝ :=
  { points := [{ x := 1, y := 0, z := 0, intensity := 10 }], points_timestamp := [0] }

/-- The cloud of the three points `(1,0,0)`, `(2,0,0)`, `(3,0,0)` with
intensities 10, 20, 30 and time offsets 0. -/
def exampleCloud3 : PointFCloud ℝ :=
  { points :=
      [{ x := 1, y := 0, z := 0, intensity := 10 }, { x := 2, y := 0, z := 0, intensity := 20 },
       { x := 3, y := 0, z := 0, intensity := 30 }]
    points_timestamp := [0, 0, 0] }

/-- Two copies of the point of `exampleCloud`. -/
def exampleCloud2 : PointFCloud ℝ :=
  { points := [{ x := 1, y := 0, z := 0, intensity := 10 }, { x := 1, y := 0, z := 0, intensity := 10 }]
    points_timestamp := [0, 0] }

/-- Four copies of the point of `exampleCloud`. -/
def exampleCloud4 : PointFCloud ℝ :=
  { points := List.replicate 4 { x := 1, y := 0, z := 0, intensity := 10 }
    points_timestamp := List.replicate 4 0 }

/-- The example flags with the feature width `2 ^ 30`. -/
def wideFlags : Flags ℝ := { exampleFlags with num_point_feature := 2 ^ 30 }

/-- A frame holding `exampleCloud`, captured at time `t` with the identity
pose. -/
noncomputable def exampleFrame (t : ℝ) : LidarFrame ℝ :=
  { cloud := some exampleCloud
    timestamp := t
    lidar2world_pose := Affine3.identity
    segmented_objects := [] }

/-- The record `(x, y, z, dy, dx, dz, yaw_raw) = (0, 0, 0, 2, 4, 2, 0)`. -/
def exampleRecord : List ℝ := [0, 0, 0, 2, 4, 2, 0]

end apollo.perception.lidar

/-! # Theorems -/

namespace apollo.perception.lidar

/-! ## Eigen -/

/-- The modelled inverse of an affine transform undoes the transform when the
linear part is invertible. -/
theorem Affine3.inverse_apply_apply {α : Type} [LinearOrderedField α] (t : Affine3 α)
    (hdet : t.linear.det ≠ 0) (v : Vector3 α) :
    t.inverse.apply (t.apply v) = v := by
  obtain ⟨⟨a, b, c, d, e, f, g, h, i⟩, ⟨tx, ty, tz⟩⟩ := t
  obtain ⟨x, y, z⟩ := v
  simp only [Matrix3.det] at hdet
  simp only [Affine3.inverse, Affine3.apply, Matrix3.inverse, Matrix3.mulVec, Matrix3.det,
    Vector3.mk.injEq]
  refine ⟨?_, ?_, ?_⟩ <;> field_simp <;> ring

/-! ## The label table -/

/-- C5: `GetObjectSubType` returns a sub-type for every integer label: `UNKNOWN`
for every label outside `0..9` (negative labels included), and on `0..9` the
table 0→BUS, 1→CAR, 2→UNKNOWN_MOVABLE, 3→UNKNOWN_MOVABLE, 4→TRUCK,
5→UNKNOWN_UNMOVABLE, 6→CYCLIST, 7→MOTORCYCLIST, 8→PEDESTRIAN, 9→TRAFFICCONE. -/
theorem GetObjectSubType_table :
    (∀ label : Int, (label < 0 ∨ 9 < label) →
      GetObjectSubType label = ObjectSubType.UNKNOWN) ∧
    GetObjectSubType 0 = ObjectSubType.BUS ∧
    GetObjectSubType 1 = ObjectSubType.CAR ∧
    GetObjectSubType 2 = ObjectSubType.UNKNOWN_MOVABLE ∧
    GetObjectSubType 3 = ObjectSubType.UNKNOWN_MOVABLE ∧
    GetObjectSubType 4 = ObjectSubType.TRUCK ∧
    GetObjectSubType 5 = ObjectSubType.UNKNOWN_UNMOVABLE ∧
    GetObjectSubType 6 = ObjectSubType.CYCLIST ∧
    GetObjectSubType 7 = ObjectSubType.MOTORCYCLIST ∧
    GetObjectSubType 8 = ObjectSubType.PEDESTRIAN ∧
    GetObjectSubType 9 = ObjectSubType.TRAFFICCONE := by
  refine ⟨?_, rfl, rfl, rfl, rfl, rfl, rfl, rfl, rfl, rfl, rfl⟩
  intro label h
  unfold GetObjectSubType
  split <;> first | rfl | omega

/-- At the labels `-1` and `10`, just outside the table, and at `2`. -/
theorem GetObjectSubType_table_witness :
    GetObjectSubType (-1) = ObjectSubType.UNKNOWN ∧
    GetObjectSubType 10 = ObjectSubType.UNKNOWN ∧
    GetObjectSubType 2 = ObjectSubType.UNKNOWN_MOVABLE :=
  ⟨GetObjectSubType_table.1 (-1) (Or.inl (by decide)),
   GetObjectSubType_table.1 10 (Or.inr (by decide)),
   GetObjectSubType_table.2.2.2.1⟩

/-! ## The heading fix-up -/

/-- In the real-number reading the fix-up is the negated argument of
`cos (yaw_raw + π/2) + sin (yaw_raw + π/2) i`. Used to evaluate headings away
from the branch cut of `atan2`. -/
theorem fixYaw_real (yaw_raw : ℝ) :
    GetObjects.fixYaw realMath yaw_raw
      = -Complex.arg ⟨Real.cos (yaw_raw + Real.pi / 2), Real.sin (yaw_raw + Real.pi / 2)⟩ := rfl

section DecoderLemmas

set_option linter.unusedSectionVars false

variable {α : Type} [LinearOrderedField α]

/-- The loop of `GetObjects` succeeds when every iteration does, and then
`post` holds of each decoded object. -/
theorem GetObjects.loop_ok (decode : Nat → Object α → Except (Object α) (Object α))
    (post : Nat → Object α → Prop) :
    ∀ (pending : List (Object α)) (i0 : Nat) (finished : List (Object α)),
      (∀ k, k < pending.length → ∀ obj ∈ pending,
        ∃ o, decode (i0 + k) obj = Except.ok o ∧ post (i0 + k) o) →
      ∃ res, GetObjects.loop decode i0 finished pending = Except.ok (finished ++ res) ∧
        res.length = pending.length ∧
        ∀ k o, res[k]? = some o → post (i0 + k) o := by
  intro pending
  induction pending with
  | nil =>
    intro i0 finished _
    exact ⟨[], by simp [GetObjects.loop], rfl, by simp⟩
  | cons obj rest ih =>
    intro i0 finished h
    obtain ⟨o, ho, hpo⟩ := h 0 (by simp) obj (by simp)
    have hrest : ∀ k, k < rest.length → ∀ ob ∈ rest,
        ∃ o, decode (i0 + 1 + k) ob = Except.ok o ∧ post (i0 + 1 + k) o := by
      intro k hk ob hob
      have := h (k + 1) (by simpa using hk) ob (by simp [hob])
      simpa [Nat.add_assoc, Nat.add_comm 1 k] using this
    obtain ⟨res, hres, hlen, hpost⟩ := ih (i0 + 1) (finished ++ [o]) hrest
    refine ⟨o :: res, ?_, by simp [hlen], ?_⟩
    · simp only [Nat.add_zero] at ho
      simp [GetObjects.loop, ho, hres]
    · intro k o2 hk
      cases k with
      | zero =>
        simp at hk
        subst hk
        simpa using hpo
      | succ k =>
        have := hpost k o2 (by simpa using hk)
        simpa [Nat.add_assoc, Nat.add_comm 1 k] using this

/-- The loop of `GetObjects` throws when some iteration does whatever object
it is given, the earlier ones succeeding or not. -/
theorem GetObjects.loop_error (decode : Nat → Object α → Except (Object α) (Object α)) :
    ∀ (pending : List (Object α)) (i0 : Nat) (finished : List (Object α)) (k : Nat),
      k < pending.length →
      (∀ obj, ∃ o, decode (i0 + k) obj = Except.error o) →
      ∃ objs, GetObjects.loop decode i0 finished pending = Except.error objs ∧
        objs.length = finished.length + pending.length := by
  intro pending
  induction pending with
  | nil => intro i0 finished k hk; simp at hk
  | cons obj rest ih =>
    intro i0 finished k hk h
    cases hd : decode i0 obj with
    | error o =>
      exact ⟨finished ++ o :: rest, by simp [GetObjects.loop, hd], by simp⟩
    | ok o =>
      cases k with
      | zero =>
        obtain ⟨o2, ho2⟩ := h obj
        simp [hd] at ho2
      | succ k =>
        have h2 : ∀ ob, ∃ o, decode (i0 + 1 + k) ob = Except.error o := by
          intro ob
          simpa [Nat.add_assoc, Nat.add_comm 1 k] using h ob
        obtain ⟨objs, hobjs, hlen⟩ := ih (i0 + 1) (finished ++ [o]) k (by simpa using hk) h2
        refine ⟨objs, by simp [GetObjects.loop, hd, hobjs], ?_⟩
        simp [hlen]
        omega

/-- What an iteration of `GetObjects` produces when its seven reads and its
label read are in range. -/
theorem GetObjects.decodeObject_ok (m : FloatMath α) (F : Flags α) (T : TypeTables)
    (pose : Affine3 α) (detections : List α) (labels : List Int) (i : Nat) (object : Object α)
    (hi : i * F.num_output_box_feature + 6 < detections.length) (hl : i < labels.length) :
    ∃ o x y z dy dx dz yaw_raw,
      GetObjects.decodeObject m F T pose detections labels i object = Except.ok o ∧
      detections[i * F.num_output_box_feature + 0]? = some x ∧
      detections[i * F.num_output_box_feature + 1]? = some y ∧
      detections[i * F.num_output_box_feature + 2]? = some z ∧
      detections[i * F.num_output_box_feature + 3]? = some dy ∧
      detections[i * F.num_output_box_feature + 4]? = some dx ∧
      detections[i * F.num_output_box_feature + 5]? = some dz ∧
      detections[i * F.num_output_box_feature + 6]? = some yaw_raw ∧
      o.theta = GetObjects.fixYaw m yaw_raw ∧
      o.lidar_supplement.cloud = object.lidar_supplement.cloud ++
        (GetObjects.corners (GetObjects.affine3f m x y z (GetObjects.fixYaw m yaw_raw))
          pose dx dy dz).map Prod.fst ∧
      o.lidar_supplement.cloud_world = object.lidar_supplement.cloud_world ++
        (GetObjects.corners (GetObjects.affine3f m x y z (GetObjects.fixYaw m yaw_raw))
          pose dx dy dz).map Prod.snd := by
  obtain ⟨x, hx⟩ : ∃ x, detections[i * F.num_output_box_feature + 0]? = some x :=
    ⟨_, List.getElem?_eq_getElem (by omega)⟩
  obtain ⟨y, hy⟩ : ∃ x, detections[i * F.num_output_box_feature + 1]? = some x :=
    ⟨_, List.getElem?_eq_getElem (by omega)⟩
  obtain ⟨z, hz⟩ : ∃ x, detections[i * F.num_output_box_feature + 2]? = some x :=
    ⟨_, List.getElem?_eq_getElem (by omega)⟩
  obtain ⟨dy, hdy⟩ : ∃ x, detections[i * F.num_output_box_feature + 3]? = some x :=
    ⟨_, List.getElem?_eq_getElem (by omega)⟩
  obtain ⟨dx, hdx⟩ : ∃ x, detections[i * F.num_output_box_feature + 4]? = some x :=
    ⟨_, List.getElem?_eq_getElem (by omega)⟩
  obtain ⟨dz, hdz⟩ : ∃ x, detections[i * F.num_output_box_feature + 5]? = some x :=
    ⟨_, List.getElem?_eq_getElem (by omega)⟩
  obtain ⟨yaw_raw, hyaw⟩ : ∃ x, detections[i * F.num_output_box_feature + 6]? = some x :=
    ⟨_, List.getElem?_eq_getElem (by omega)⟩
  obtain ⟨label, hlabel⟩ : ∃ x, labels[i]? = some x :=
    ⟨_, List.getElem?_eq_getElem hl⟩
  have hdec : ∃ o, GetObjects.decodeObject m F T pose detections labels i object = Except.ok o ∧
      o.theta = GetObjects.fixYaw m yaw_raw ∧
      o.lidar_supplement.cloud = object.lidar_supplement.cloud ++
        (GetObjects.corners (GetObjects.affine3f m x y z (GetObjects.fixYaw m yaw_raw))
          pose dx dy dz).map Prod.fst ∧
      o.lidar_supplement.cloud_world = object.lidar_supplement.cloud_world ++
        (GetObjects.corners (GetObjects.affine3f m x y z (GetObjects.fixYaw m yaw_raw))
          pose dx dy dz).map Prod.snd := by
    simp only [GetObjects.decodeObject, hx, hy, hz, hdy, hdx, hdz, hyaw, hlabel]
    exact ⟨_, rfl, rfl, rfl, rfl⟩
  obtain ⟨o, ho, h1, h2, h3⟩ := hdec
  exact ⟨o, x, y, z, dy, dx, dz, yaw_raw, ho, hx, hy, hz, hdy, hdx, hdz, hyaw, h1, h2, h3⟩

/-- With records of width 7 and at least `detections.length / 7` labels,
`GetObjects` returns `detections.length / 7` objects, each described by the
record it was decoded from. -/
theorem GetObjects.ok_of_labels (m : FloatMath α) (F : Flags α) (T : TypeTables)
    (pose : Affine3 α) (detections : List α) (labels : List Int)
    (hw : F.num_output_box_feature = 7) (hn : detections.length / 7 ≤ labels.length) :
    ∃ objs, GetObjects m F T pose detections labels = Except.ok objs ∧
      objs.length = detections.length / 7 ∧
      ∀ i o, objs[i]? = some o →
        ∃ x y z dy dx dz yaw_raw,
          detections[i * 7 + 0]? = some x ∧ detections[i * 7 + 1]? = some y ∧
          detections[i * 7 + 2]? = some z ∧ detections[i * 7 + 3]? = some dy ∧
          detections[i * 7 + 4]? = some dx ∧ detections[i * 7 + 5]? = some dz ∧
          detections[i * 7 + 6]? = some yaw_raw ∧
          o.theta = GetObjects.fixYaw m yaw_raw ∧
          o.lidar_supplement.cloud =
            (GetObjects.corners (GetObjects.affine3f m x y z (GetObjects.fixYaw m yaw_raw))
              pose dx dy dz).map Prod.fst ∧
          o.lidar_supplement.cloud_world =
            (GetObjects.corners (GetObjects.affine3f m x y z (GetObjects.fixYaw m yaw_raw))
              pose dx dy dz).map Prod.snd := by
  have key := GetObjects.loop_ok (GetObjects.decodeObject m F T pose detections labels)
    (fun i o => ∃ x y z dy dx dz yaw_raw,
      detections[i * 7 + 0]? = some x ∧ detections[i * 7 + 1]? = some y ∧
      detections[i * 7 + 2]? = some z ∧ detections[i * 7 + 3]? = some dy ∧
      detections[i * 7 + 4]? = some dx ∧ detections[i * 7 + 5]? = some dz ∧
      detections[i * 7 + 6]? = some yaw_raw ∧
      o.theta = GetObjects.fixYaw m yaw_raw ∧
      o.lidar_supplement.cloud =
        (GetObjects.corners (GetObjects.affine3f m x y z (GetObjects.fixYaw m yaw_raw))
          pose dx dy dz).map Prod.fst ∧
      o.lidar_supplement.cloud_world =
        (GetObjects.corners (GetObjects.affine3f m x y z (GetObjects.fixYaw m yaw_raw))
          pose dx dy dz).map Prod.snd)
    (List.replicate (detections.length / 7) Object.fresh) 0 []
    (by
      intro k hk obj hobj
      rw [List.length_replicate] at hk
      have hobj2 : obj = Object.fresh := List.eq_of_mem_replicate hobj
      subst hobj2
      have hi : (0 + k) * F.num_output_box_feature + 6 < detections.length := by
        rw [hw]
        have := Nat.div_mul_le_self detections.length 7
        omega
      obtain ⟨o, x, y, z, dy, dx, dz, yaw_raw, ho, hx, hy, hz, hdy, hdx, hdz, hyaw, h1, h2, h3⟩ :=
        GetObjects.decodeObject_ok m F T pose detections labels (0 + k) Object.fresh hi
          (by omega)
      rw [hw] at hx hy hz hdy hdx hdz hyaw
      refine ⟨o, ho, x, y, z, dy, dx, dz, yaw_raw, hx, hy, hz, hdy, hdx, hdz, hyaw, h1, ?_, ?_⟩
      · simpa [Object.fresh] using h2
      · simpa [Object.fresh] using h3)
  obtain ⟨res, hres, hlen, hpost⟩ := key
  refine ⟨res, ?_, by simpa using hlen, ?_⟩
  · simpa [GetObjects, hw] using hres
  · intro i o hio
    simpa using hpost i o hio

/-- With records of width 7 and fewer than `detections.length / 7` labels,
`GetObjects` throws on reading the label of object `labels.length`. -/
theorem GetObjects.error_of_labels (m : FloatMath α) (F : Flags α) (T : TypeTables)
    (pose : Affine3 α) (detections : List α) (labels : List Int)
    (hw : F.num_output_box_feature = 7) (hn : labels.length < detections.length / 7) :
    ∃ objs, GetObjects m F T pose detections labels = Except.error objs ∧
      objs.length = detections.length / 7 := by
  have key := GetObjects.loop_error (GetObjects.decodeObject m F T pose detections labels)
    (List.replicate (detections.length / 7) Object.fresh) 0 [] labels.length
    (by simpa using hn)
    (by
      intro obj
      have hl : labels[0 + labels.length]? = none := by simp
      simp only [GetObjects.decodeObject, hl]
      split <;> exact ⟨_, rfl⟩)
  obtain ⟨objs, hobjs, hlen⟩ := key
  refine ⟨objs, ?_, by simpa using hlen⟩
  simpa [GetObjects, hw] using hobjs

/-- The corner loops of `GetObjects` produce eight corners. -/
theorem GetObjects.corners_length (affine3f pose : Affine3 α) (dx dy dz : α) :
    (GetObjects.corners affine3f pose dx dy dz).length = 8 := by
  simp [GetObjects.corners]

end DecoderLemmas


/-! ## Decoding: sizes and failures -/

/-- C2: when `detections.length = labels.length * 7` (records of width 7),
`GetObjects` returns exactly `labels.length` objects, and every object has
exactly 8 sensor-frame corners (`lidar_supplement.cloud`) and exactly 8
world-frame corners (`lidar_supplement.cloud_world`). -/
theorem GetObjects_sizes {α : Type} [LinearOrderedField α] (m : FloatMath α) (F : Flags α)
    (T : TypeTables) (pose : Affine3 α) (detections : List α) (labels : List Int)
    (hw : F.num_output_box_feature = 7)
    (hlen : detections.length = labels.length * F.num_output_box_feature) :
    ∃ objs, GetObjects m F T pose detections labels = Except.ok objs ∧
      objs.length = labels.length ∧
      ∀ o ∈ objs, o.lidar_supplement.cloud.length = 8 ∧
        o.lidar_supplement.cloud_world.length = 8 := by
  rw [hw] at hlen
  have hq : detections.length / 7 = labels.length := by omega
  obtain ⟨objs, hok, hl, hpost⟩ :=
    GetObjects.ok_of_labels m F T pose detections labels hw (by omega)
  refine ⟨objs, hok, by omega, ?_⟩
  intro o ho
  obtain ⟨i, hi, hio⟩ := List.getElem_of_mem ho
  obtain ⟨x, y, z, dy, dx, dz, yaw_raw, -, -, -, -, -, -, -, -, hc, hcw⟩ :=
    hpost i o (by rw [List.getElem?_eq_getElem hi, hio])
  rw [hc, hcw]
  simp [GetObjects.corners_length]


/-- C2 on one record with one label: one object with 8 and 8 corners. -/
theorem GetObjects_sizes_witness :
    ∃ objs, GetObjects realMath exampleFlags exampleTables Affine3.identity exampleRecord [0]
        = Except.ok objs ∧
      objs.length = [(0 : Int)].length ∧
      ∀ o ∈ objs, o.lidar_supplement.cloud.length = 8 ∧
        o.lidar_supplement.cloud_world.length = 8 :=
  GetObjects_sizes realMath exampleFlags exampleTables Affine3.identity exampleRecord [0]
    rfl rfl

/-- C4 fails: eight detection values, not a multiple of 7, with one label.
`GetObjects` does not fail; it returns one decoded object with its eight
corners. -/
theorem GetObjects_malformed_succeeds :
    (exampleRecord ++ [9]).length % exampleFlags.num_output_box_feature ≠ 0 ∧
    [(0 : Int)].length * exampleFlags.num_output_box_feature ≠ (exampleRecord ++ [9]).length ∧
    ∃ o, GetObjects realMath exampleFlags exampleTables Affine3.identity
        (exampleRecord ++ [9]) [0] = Except.ok [o] ∧
      o.lidar_supplement.cloud.length = 8 := by
  refine ⟨by decide, by decide, ?_⟩
  simp [GetObjects, exampleFlags, exampleRecord, GetObjects.loop, GetObjects.decodeObject,
    GetObjects.corners, Object.fresh]

/-- C4, as the code has it: with records of width 7, `GetObjects` makes no
check of the two lengths. It decodes `detections.length / 7` records (rounded
down). It succeeds with that many objects whenever there are at least that
many labels, also when `detections.length` is not a multiple of 7 or differs
from `labels.length * 7`; it fails, on an out-of-range read of `labels`,
exactly when there are fewer labels. -/
theorem GetObjects_fails_iff {α : Type} [LinearOrderedField α] (m : FloatMath α) (F : Flags α)
    (T : TypeTables) (pose : Affine3 α) (detections : List α) (labels : List Int)
    (hw : F.num_output_box_feature = 7) :
    (detections.length / 7 ≤ labels.length →
      ∃ objs, GetObjects m F T pose detections labels = Except.ok objs ∧
        objs.length = detections.length / 7) ∧
    (labels.length < detections.length / 7 →
      ∃ objs, GetObjects m F T pose detections labels = Except.error objs) := by
  constructor
  · intro hn
    obtain ⟨objs, hok, hl, -⟩ := GetObjects.ok_of_labels m F T pose detections labels hw hn
    exact ⟨objs, hok, hl⟩
  · intro hn
    obtain ⟨objs, herr, -⟩ := GetObjects.error_of_labels m F T pose detections labels hw hn
    exact ⟨objs, herr⟩

/-- C4 amended, on eight detection values with one label (success, one
object) and on two records with one label (failure). -/
theorem GetObjects_fails_iff_witness :
    (∃ objs, GetObjects realMath exampleFlags exampleTables Affine3.identity
        (exampleRecord ++ [9]) [0] = Except.ok objs ∧ objs.length = 1) ∧
    (∃ objs, GetObjects realMath exampleFlags exampleTables Affine3.identity
        (exampleRecord ++ exampleRecord) [0] = Except.error objs) :=
  ⟨(GetObjects_fails_iff realMath exampleFlags exampleTables Affine3.identity
      (exampleRecord ++ [9]) [0] rfl).1 (by decide),
   (GetObjects_fails_iff realMath exampleFlags exampleTables Affine3.identity
      (exampleRecord ++ exampleRecord) [0] rfl).2 (by decide)⟩


/-! ## Decoding: corner geometry -/

/-- Over the reals the box transform of `GetObjects` is the rotation by `yaw`
about the vertical axis followed by the translation by `(x, y, z)`. -/
theorem GetObjects.affine3f_apply_real (x y z yaw : ℝ) (v : Vector3 ℝ) :
    (GetObjects.affine3f realMath x y z yaw).apply v =
      { x := x + (Real.cos yaw * v.x - Real.sin yaw * v.y)
        y := y + (Real.sin yaw * v.x + Real.cos yaw * v.y)
        z := z + v.z } := by
  have hc : Real.cos yaw = 1 - 2 * Real.sin (yaw / 2) * Real.sin (yaw / 2) := by
    have h1 := Real.cos_two_mul (yaw / 2)
    have h2 := Real.sin_sq_add_cos_sq (yaw / 2)
    have e : 2 * (yaw / 2) = yaw := by ring
    rw [e] at h1
    nlinarith
  have hs : Real.sin yaw = 2 * Real.sin (yaw / 2) * Real.cos (yaw / 2) := by
    have h1 := Real.sin_two_mul (yaw / 2)
    have e : 2 * (yaw / 2) = yaw := by ring
    rw [e] at h1
    exact h1
  simp only [GetObjects.affine3f, Affine3.apply, Matrix3.mulVec, Quaternion.toRotationMatrix,
    Quaternion.mul, Quaternion.ofAngleAxis, realMath, Vector3.UnitX, Vector3.UnitY,
    Vector3.UnitZ, zero_div, Real.cos_zero, Real.sin_zero, Vector3.mk.injEq]
  rw [hc, hs]
  refine ⟨by ring, by ring, by ring⟩

/-- C3: for the record `(x, y, z, dy, dx, dz, yaw_raw)` at position `i` of a
well-formed detections array (`dy` read from position 3, `dx` from position
4), `GetObjects` returns an object `i` whose heading is the fixed-up `yaw`,
with 8 and 8 corners, such that for all `a, b, c` in `{0, 1}` the sensor-frame
corner at index `4a + 2b + c` is `(x, y, z) + Rz(yaw) (sx dx/2, sy dy/2, c dz)`
with `sx = 1` if `a = 0` else `-1`, `sy = 1` if `b = 0` else `-1` (so its height
is `z` or `z + dz`), and the world-frame corner at the same index is the pose
applied to that sensor-frame corner. -/
theorem GetObjects_corner_geometry (F : Flags ℝ) (T : TypeTables) (pose : Affine3 ℝ)
    (detections : List ℝ) (labels : List Int) (i : Nat) (x y z dy dx dz yaw_raw : ℝ)
    (hw : F.num_output_box_feature = 7)
    (hlen : detections.length = labels.length * F.num_output_box_feature)
    (hi : i < labels.length)
    (hx : detections[i * 7 + 0]? = some x) (hy : detections[i * 7 + 1]? = some y)
    (hz : detections[i * 7 + 2]? = some z) (hdy : detections[i * 7 + 3]? = some dy)
    (hdx : detections[i * 7 + 4]? = some dx) (hdz : detections[i * 7 + 5]? = some dz)
    (hyaw : detections[i * 7 + 6]? = some yaw_raw) :
    ∃ objs o, GetObjects realMath F T pose detections labels = Except.ok objs ∧
      objs[i]? = some o ∧
      o.theta = GetObjects.fixYaw realMath yaw_raw ∧
      o.lidar_supplement.cloud.length = 8 ∧
      o.lidar_supplement.cloud_world.length = 8 ∧
      ∀ a b c : Fin 2,
        ∃ corner : Point ℝ,
          corner =
            { x := x + (Real.cos o.theta * ((if a = 0 then 1 else -1) * dx / 2)
                - Real.sin o.theta * ((if b = 0 then 1 else -1) * dy / 2))
              y := y + (Real.sin o.theta * ((if a = 0 then 1 else -1) * dx / 2)
                + Real.cos o.theta * ((if b = 0 then 1 else -1) * dy / 2))
              z := z + (c.val : ℝ) * dz
              intensity := 0 } ∧
          o.lidar_supplement.cloud[4 * a.val + 2 * b.val + c.val]? = some corner ∧
          o.lidar_supplement.cloud_world[4 * a.val + 2 * b.val + c.val]? =
            some { x := (pose.apply { x := corner.x, y := corner.y, z := corner.z }).x
                   y := (pose.apply { x := corner.x, y := corner.y, z := corner.z }).y
                   z := (pose.apply { x := corner.x, y := corner.y, z := corner.z }).z
                   intensity := 0 } := by
  rw [hw] at hlen
  obtain ⟨objs, hok, hl, hpost⟩ :=
    GetObjects.ok_of_labels realMath F T pose detections labels hw (by omega)
  have hio : i < objs.length := by omega
  obtain ⟨x2, y2, z2, dy2, dx2, dz2, yaw2, hx2, hy2, hz2, hdy2, hdx2, hdz2, hyaw2, hth, hc, hcw⟩ :=
    hpost i objs[i] (List.getElem?_eq_getElem hio)
  rw [hx] at hx2; rw [hy] at hy2; rw [hz] at hz2; rw [hdy] at hdy2
  rw [hdx] at hdx2; rw [hdz] at hdz2; rw [hyaw] at hyaw2
  simp only [Option.some.injEq] at hx2 hy2 hz2 hdy2 hdx2 hdz2 hyaw2
  subst hx2 hy2 hz2 hdy2 hdx2 hdz2 hyaw2
  refine ⟨objs, objs[i], hok, List.getElem?_eq_getElem hio, hth, ?_, ?_, ?_⟩
  · rw [hc]; simp [GetObjects.corners_length]
  · rw [hcw]; simp [GetObjects.corners_length]
  · intro a b c
    rw [hc, hcw, hth]
    simp only [GetObjects.corners, GetObjects.affine3f_apply_real]
    refine ⟨_, rfl, ?_, ?_⟩
    · fin_cases a <;> fin_cases b <;> fin_cases c <;> simp
    · fin_cases a <;> fin_cases b <;> fin_cases c <;> simp

/-- C3 on the record `(0, 0, 0, 2, 4, 2, 0)` with the identity pose: the heading
is `-π/2` and the corners are `(±2, ±1, 0 or 2)` turned by `-π/2` about Z, that
is `(vy, -vx, vz)`, in the order of the loops. -/
theorem GetObjects_corner_geometry_witness :
    ∃ objs o, GetObjects realMath exampleFlags exampleTables Affine3.identity exampleRecord [0]
        = Except.ok objs ∧
      objs[0]? = some o ∧
      o.theta = -(Real.pi / 2) ∧
      o.lidar_supplement.cloud =
        [⟨1, -2, 0, 0⟩, ⟨1, -2, 2, 0⟩, ⟨-1, -2, 0, 0⟩, ⟨-1, -2, 2, 0⟩,
         ⟨1, 2, 0, 0⟩, ⟨1, 2, 2, 0⟩, ⟨-1, 2, 0, 0⟩, ⟨-1, 2, 2, 0⟩] ∧
      o.lidar_supplement.cloud_world = o.lidar_supplement.cloud := by
  obtain ⟨objs, o, hok, hget, hth, hl, hlw, hc⟩ :=
    GetObjects_corner_geometry exampleFlags exampleTables Affine3.identity exampleRecord [0]
      0 0 0 0 2 4 2 0 rfl rfl (by decide) rfl rfl rfl rfl rfl rfl rfl
  have hyaw : GetObjects.fixYaw realMath 0 = -(Real.pi / 2) := by
    rw [fixYaw_real, zero_add, Real.cos_pi_div_two, Real.sin_pi_div_two]
    have e : (⟨0, 1⟩ : ℂ) = Complex.I := by
      apply Complex.ext <;> simp
    rw [e, Complex.arg_I]
  rw [hyaw] at hth
  rw [hth] at hc
  simp only [Real.cos_neg, Real.sin_neg, Real.cos_pi_div_two, Real.sin_pi_div_two] at hc
  have hboth : o.lidar_supplement.cloud =
      [⟨1, -2, 0, 0⟩, ⟨1, -2, 2, 0⟩, ⟨-1, -2, 0, 0⟩, ⟨-1, -2, 2, 0⟩,
       ⟨1, 2, 0, 0⟩, ⟨1, 2, 2, 0⟩, ⟨-1, 2, 0, 0⟩, ⟨-1, 2, 2, 0⟩] ∧
      o.lidar_supplement.cloud_world =
      [⟨1, -2, 0, 0⟩, ⟨1, -2, 2, 0⟩, ⟨-1, -2, 0, 0⟩, ⟨-1, -2, 2, 0⟩,
       ⟨1, 2, 0, 0⟩, ⟨1, 2, 2, 0⟩, ⟨-1, 2, 0, 0⟩, ⟨-1, 2, 2, 0⟩] := by
    obtain ⟨c0, e0, s0, w0⟩ := hc 0 0 0
    obtain ⟨c1, e1, s1, w1⟩ := hc 0 0 1
    obtain ⟨c2, e2, s2, w2⟩ := hc 0 1 0
    obtain ⟨c3, e3, s3, w3⟩ := hc 0 1 1
    obtain ⟨c4, e4, s4, w4⟩ := hc 1 0 0
    obtain ⟨c5, e5, s5, w5⟩ := hc 1 0 1
    obtain ⟨c6, e6, s6, w6⟩ := hc 1 1 0
    obtain ⟨c7, e7, s7, w7⟩ := hc 1 1 1
    subst e0 e1 e2 e3 e4 e5 e6 e7
    norm_num [Affine3.identity, Affine3.apply, Matrix3.identity, Matrix3.mulVec]
      at s0 s1 s2 s3 s4 s5 s6 s7 w0 w1 w2 w3 w4 w5 w6 w7
    constructor
    · apply List.ext_getElem?
      intro n
      by_cases hn : n < 8
      · interval_cases n <;> simp [*]
      · rw [List.getElem?_eq_none (by omega), List.getElem?_eq_none (by simp; omega)]
    · apply List.ext_getElem?
      intro n
      by_cases hn : n < 8
      · interval_cases n <;> simp [*]
      · rw [List.getElem?_eq_none (by omega), List.getElem?_eq_none (by simp; omega)]
  exact ⟨objs, o, hok, hget, hth, hboth.1, by rw [hboth.1, hboth.2]⟩


section FusionLemmas

set_option linter.unusedSectionVars false

variable {α : Type} [LinearOrderedField α]

/-- The stale-entry loop removes entries from the front only. -/
theorem Detect.evictStale_suffix (t age : α) (buf : List (PointDCloud α)) :
    Detect.evictStale t age buf <:+ buf := by
  induction buf with
  | nil => simp [Detect.evictStale]
  | cons front rest ih =>
    unfold Detect.evictStale
    split
    · exact ih.trans (List.suffix_cons front rest)
    · exact List.suffix_refl _

/-- The size loop removes entries from the front only. -/
theorem Detect.evictFull_suffix (N : Int) (buf : List (PointDCloud α)) :
    Detect.evictFull N buf <:+ buf := by
  induction buf with
  | nil => simp [Detect.evictFull]
  | cons front rest ih =>
    unfold Detect.evictFull
    split
    · exact ih.trans (List.suffix_cons front rest)
    · exact List.suffix_refl _

/-- After the size loop fewer than `N - 1` entries are left, when `N > 1`. -/
theorem Detect.evictFull_length (N : Int) (hN : N > 1) (buf : List (PointDCloud α)) :
    ((Detect.evictFull N buf).length : Int) < N - 1 := by
  induction buf with
  | nil => simp [Detect.evictFull]; omega
  | cons front rest ih =>
    unfold Detect.evictFull
    split
    · exact ih
    · rename_i h
      omega

/-- After the stale-entry loop on a buffer ordered by timestamp no entry is older
than `age`. -/
theorem Detect.evictStale_fresh (t age : α) (buf : List (PointDCloud α))
    (hs : (buf.map fun e => e.timestamp).Pairwise (· ≤ ·)) :
    ∀ e ∈ Detect.evictStale t age buf, t - e.timestamp ≤ age := by
  induction buf with
  | nil => simp [Detect.evictStale]
  | cons front rest ih =>
    rw [List.map_cons, List.pairwise_cons] at hs
    unfold Detect.evictStale
    split
    · exact ih hs.2
    · rename_i h
      intro e he
      rw [List.mem_cons] at he
      rcases he with rfl | he
      · exact not_lt.mp h
      · have h1 := hs.1 e.timestamp (List.mem_map.mpr ⟨e, he, rfl⟩)
        have h2 := not_lt.mp h
        linarith

/-- The state left by a call that passes the checks at the head of `Detect` is
the buffer left by the fusion stage. -/
theorem Detect.self_of_accepted (m : FloatMath α) (T : TypeTables) (F : Flags α) (E : Env α)
    (self : PointPillarsDetection α) (frame : Option (LidarFrame α)) (f : LidarFrame α)
    (c : PointFCloud α) (h : Detect.accepted E frame = some (f, c)) :
    (Detect m T F E self frame).self.prev_world_clouds_ =
      (Detect.fuse F f.lidar2world_pose f.timestamp
        (Detect.resetTimestamps (Detect.downsample E F c).1)
        ((Detect.downsample E F c).1.size : Int) self.prev_world_clouds_).prev_world_clouds := by
  unfold Detect.accepted at h
  unfold Detect
  split at h
  · simp at h
  · rename_i fr
    split at h
    · simp at h
    · rename_i oc hoc
      simp only [hoc]
      split at h
      · simp at h
      · rename_i hsz
        split at h
        · simp at h
        · rename_i hcuda
          simp only [Option.some.injEq, Prod.mk.injEq] at h
          obtain ⟨rfl, rfl⟩ := h
          rw [if_neg hsz, if_neg hcuda]
          split
          · rfl
          · split
            · rfl
            · split <;> rfl

/-- A call that fails the checks at the head of `Detect` leaves the detector
as it was. -/
theorem Detect.self_of_rejected (m : FloatMath α) (T : TypeTables) (F : Flags α) (E : Env α)
    (self : PointPillarsDetection α) (frame : Option (LidarFrame α))
    (h : Detect.accepted E frame = none) :
    (Detect m T F E self frame).self = self := by
  unfold Detect.accepted at h
  unfold Detect
  split at h
  · rfl
  · rename_i fr
    split at h
    · rename_i hoc
      simp only [hoc]
    · rename_i oc hoc
      simp only [hoc]
      split at h
      · rename_i hsz
        simp only [hsz, if_true]
      · rename_i hsz
        split at h
        · rename_i hcuda
          rw [if_neg hsz, if_pos hcuda]
        · simp at h

/-- The buffer left by the fusion stage when fusion is active. -/
theorem Detect.fuse_prev_active (F : Flags α) (pose : Affine3 α) (t : α) (cur : PointFCloud α)
    (n : Int) (buf : List (PointDCloud α))
    (hfuse : F.enable_fuse_frames = true) (hN : F.num_fuse_frames > 1) :
    (Detect.fuse F pose t cur n buf).prev_world_clouds =
      Detect.evictFull F.num_fuse_frames (Detect.evictStale t F.fuse_time_interval buf)
        ++ [Detect.toWorldCloud pose t cur] ∧
    (Detect.fuse F pose t cur n buf).cloud =
      FuseCloud pose t cur (Detect.evictStale t F.fuse_time_interval buf) := by
  simp [Detect.fuse, hfuse, hN]

/-- The fusion stage does nothing when fusion is not active. -/
theorem Detect.fuse_inactive (F : Flags α) (pose : Affine3 α) (t : α) (cur : PointFCloud α)
    (n : Int) (buf : List (PointDCloud α))
    (h : ¬ (F.enable_fuse_frames = true ∧ F.num_fuse_frames > 1)) :
    (Detect.fuse F pose t cur n buf).prev_world_clouds = buf ∧
    (Detect.fuse F pose t cur n buf).cloud = cur ∧
    (Detect.fuse F pose t cur n buf).num_points = n := by
  simp [Detect.fuse, h]

end FusionLemmas


section FusionLemmas2

set_option linter.unusedSectionVars false

variable {α : Type} [LinearOrderedField α]

/-- The inner loop of `FuseCloud` appends one point and one time offset per
point of the buffered cloud. -/
theorem FuseCloud.inner_loop (f : Point α → Point α) (d : α) (points : List (Point α)) :
    ∀ out : PointFCloud α,
      points.foldl (fun out point => out.push_back (f point) d) out =
        { points := out.points ++ points.map f
          points_timestamp := out.points_timestamp ++ points.map fun _ => d } := by
  induction points with
  | nil => intro out; simp
  | cons p rest ih =>
    intro out
    rw [List.foldl_cons, ih]
    simp [PointFCloud.push_back]

/-- `FuseCloud` appends to the output cloud, for each cloud of the list taken in
the order of the loop, its moved points and their common time offset. -/
theorem FuseCloud.outer_loop (f : Point α → Point α) (t : α) (clouds : List (PointDCloud α)) :
    ∀ out : PointFCloud α,
      clouds.foldl
          (fun out iter =>
            iter.points.foldl (fun out point => out.push_back (f point) (t - iter.timestamp)) out)
          out =
        { points := out.points ++ clouds.flatMap fun e => e.points.map f
          points_timestamp :=
            out.points_timestamp ++ clouds.flatMap fun e => e.points.map fun _ => t - e.timestamp } := by
  induction clouds with
  | nil => intro out; simp
  | cons c rest ih =>
    intro out
    rw [List.foldl_cons, FuseCloud.inner_loop, ih]
    simp

/-- The points and time offsets of the cloud `FuseCloud` returns. -/
theorem FuseCloud.closed_form (pose : Affine3 α) (t : α) (out : PointFCloud α)
    (buf : List (PointDCloud α)) :
    FuseCloud pose t out buf =
      { points := out.points ++ buf.reverse.flatMap fun e => e.points.map fun p =>
          { x := (pose.inverse.apply { x := p.x, y := p.y, z := p.z }).x
            y := (pose.inverse.apply { x := p.x, y := p.y, z := p.z }).y
            z := (pose.inverse.apply { x := p.x, y := p.y, z := p.z }).z
            intensity := p.intensity }
        points_timestamp :=
          out.points_timestamp ++ buf.reverse.flatMap fun e => e.points.map fun _ => t - e.timestamp } := by
  unfold FuseCloud
  exact FuseCloud.outer_loop _ t buf.reverse out

end FusionLemmas2

/-! ## Fusion -/

/-- C9: for every current cloud `C`, pose `P`, timestamp `t` and buffer
`[e1, ..., ek]` (oldest first), the cloud fused by `Detect` (time offsets reset,
then `FuseCloud`) holds the points of `C` unchanged, each with time offset 0,
followed by the points of `ek`, then `e(k-1)`, ..., then `e1`, each entry's
points in their order, at position `P⁻¹ p`, with the stored intensity and the
time offset `t - ej.timestamp`; its size is `|C| + |e1| + ... + |ek|`. -/
theorem FuseCloud_contents {α : Type} [LinearOrderedField α] (P : Affine3 α) (t : α)
    (C : PointFCloud α) (buf : List (PointDCloud α)) :
    FuseCloud P t (Detect.resetTimestamps C) buf =
      { points := C.points ++ buf.reverse.flatMap fun e => e.points.map fun p =>
          { x := (P.inverse.apply { x := p.x, y := p.y, z := p.z }).x
            y := (P.inverse.apply { x := p.x, y := p.y, z := p.z }).y
            z := (P.inverse.apply { x := p.x, y := p.y, z := p.z }).z
            intensity := p.intensity }
        points_timestamp :=
          List.replicate C.points.length 0 ++
            buf.reverse.flatMap fun e => e.points.map fun _ => t - e.timestamp } ∧
    (FuseCloud P t (Detect.resetTimestamps C) buf).size =
      C.points.length + (buf.map fun e => e.points.length).sum := by
  have h := FuseCloud.closed_form P t (Detect.resetTimestamps C) buf
  refine ⟨by rw [h]; rfl, ?_⟩
  rw [h]
  simp only [PointFCloud.size, Detect.resetTimestamps, List.length_append, List.length_flatMap,
    List.length_map, List.map_reverse, List.sum_reverse, Function.comp_def]

/-- C6: for every sequence of `Detect` calls with `num_fuse_frames = N > 1`,
started on an empty fusion buffer, the buffer holds at most `N - 1` entries
after the last call, hence after every call (fusion enabled or not). -/
theorem Detect_buffer_bounded {α : Type} [LinearOrderedField α] (m : FloatMath α)
    (T : TypeTables) (F : Flags α) (calls : List (Env α × Option (LidarFrame α)))
    (hN : F.num_fuse_frames > 1) :
    ((Detect.run m T F { prev_world_clouds_ := [] } calls).prev_world_clouds_.length : Int)
      ≤ F.num_fuse_frames - 1 := by
  have step : ∀ (calls : List (Env α × Option (LidarFrame α))) (self : PointPillarsDetection α),
      (self.prev_world_clouds_.length : Int) ≤ F.num_fuse_frames - 1 →
      ((Detect.run m T F self calls).prev_world_clouds_.length : Int)
        ≤ F.num_fuse_frames - 1 := by
    intro calls
    induction calls with
    | nil => intro self h; exact h
    | cons call rest ih =>
      intro self h
      rw [Detect.run]
      apply ih
      cases ha : Detect.accepted call.1 call.2 with
      | none => rw [Detect.self_of_rejected m T F call.1 self call.2 ha]; exact h
      | some a =>
        obtain ⟨f, c⟩ := a
        rw [Detect.self_of_accepted m T F call.1 self call.2 f c ha]
        by_cases hf : F.enable_fuse_frames = true
        · rw [(Detect.fuse_prev_active F _ _ _ _ _ hf hN).1]
          have := Detect.evictFull_length F.num_fuse_frames hN
            (Detect.evictStale f.timestamp F.fuse_time_interval self.prev_world_clouds_)
          simp only [List.length_append, List.length_singleton]
          push_cast
          omega
        · rw [(Detect.fuse_inactive F _ _ _ _ _ (fun hc => hf hc.1)).1]
          exact h
  apply step
  simp
  omega

/-- C6 on three sweeps with `num_fuse_frames = 2`: at most one entry. -/
theorem Detect_buffer_bounded_witness :
    ((Detect.run realMath exampleTables (fusionFlags 2 1) { prev_world_clouds_ := [] }
        [(exampleEnv, some (exampleFrame 0)), (exampleEnv, some (exampleFrame 1)),
         (exampleEnv, some (exampleFrame 2))]).prev_world_clouds_.length : Int)
      ≤ (fusionFlags 2 1).num_fuse_frames - 1 :=
  Detect_buffer_bounded realMath exampleTables (fusionFlags 2 1) _ (by decide)


/-- Appending the same list to a suffix and to the whole keeps the suffix
relation. -/
theorem suffix_append_same {β : Type} {l1 l2 : List β} (h : l1 <:+ l2) (s : List β) :
    l1 ++ s <:+ l2 ++ s := by
  obtain ⟨pre, hpre⟩ := h
  exact ⟨pre, by rw [← hpre, List.append_assoc]⟩

/-- The invariant of the fusion buffer over a sequence of calls with
non-decreasing sweep timestamps: the timestamps of the buffer are a suffix of
the timestamps committed so far, and no entry is older than the interval,
counted from the last committed sweep. -/
theorem Detect.run_fresh {α : Type} [LinearOrderedField α] (m : FloatMath α) (T : TypeTables)
    (F : Flags α) (hfuse : F.enable_fuse_frames = true) (hN : F.num_fuse_frames > 1)
    (hage : 0 ≤ F.fuse_time_interval) :
    ∀ (calls : List (Env α × Option (LidarFrame α))) (self : PointPillarsDetection α)
      (past : List α),
      (self.prev_world_clouds_.map fun e => e.timestamp) <:+ past →
      (∀ e ∈ self.prev_world_clouds_, ∀ tl ∈ past.getLast?,
        tl - e.timestamp ≤ F.fuse_time_interval) →
      (past ++ Detect.sweepTimestamps calls).Pairwise (· ≤ ·) →
      ((Detect.run m T F self calls).prev_world_clouds_.map fun e => e.timestamp)
          <:+ past ++ Detect.sweepTimestamps calls ∧
        ∀ e ∈ (Detect.run m T F self calls).prev_world_clouds_,
          ∀ tl ∈ (past ++ Detect.sweepTimestamps calls).getLast?,
            tl - e.timestamp ≤ F.fuse_time_interval := by
  intro calls
  induction calls with
  | nil =>
    intro self past hsuf hfresh _
    simpa [Detect.run, Detect.sweepTimestamps] using And.intro hsuf hfresh
  | cons call rest ih =>
    intro self past hsuf hfresh hsorted
    rw [Detect.run]
    cases ha : Detect.accepted call.1 call.2 with
    | none =>
      have hts : Detect.sweepTimestamps (call :: rest) = Detect.sweepTimestamps rest := by
        simp [Detect.sweepTimestamps, ha]
      rw [hts] at hsorted ⊢
      rw [Detect.self_of_rejected m T F call.1 self call.2 ha]
      exact ih self past hsuf hfresh hsorted
    | some a =>
      obtain ⟨f, c⟩ := a
      have hts : Detect.sweepTimestamps (call :: rest)
          = f.timestamp :: Detect.sweepTimestamps rest := by
        simp [Detect.sweepTimestamps, ha]
      have hassoc : past ++ f.timestamp :: Detect.sweepTimestamps rest
          = (past ++ [f.timestamp]) ++ Detect.sweepTimestamps rest := by simp
      rw [hts, hassoc] at hsorted ⊢
      have hbuf := Detect.self_of_accepted m T F call.1 self call.2 f c ha
      rw [(Detect.fuse_prev_active F _ _ _ _ _ hfuse hN).1] at hbuf
      have hpast : past.Pairwise (· ≤ ·) :=
        (List.pairwise_append.mp (List.pairwise_append.mp hsorted).1).1
      have hsortedBuf : (self.prev_world_clouds_.map fun e => e.timestamp).Pairwise (· ≤ ·) :=
        hpast.sublist hsuf.sublist
      have hkept : Detect.evictFull F.num_fuse_frames
            (Detect.evictStale f.timestamp F.fuse_time_interval self.prev_world_clouds_)
          <:+ self.prev_world_clouds_ :=
        (Detect.evictFull_suffix _ _).trans (Detect.evictStale_suffix _ _ _)
      apply ih
      · rw [hbuf]
        simp only [List.map_append, List.map_cons, List.map_nil, Detect.toWorldCloud]
        apply suffix_append_same
        exact (hkept.map fun e => e.timestamp).trans hsuf
      · intro e he tl htl
        rw [List.getLast?_concat] at htl
        simp only [Option.mem_def, Option.some.injEq] at htl
        subst htl
        rw [hbuf, List.mem_append] at he
        rcases he with he | he
        · exact Detect.evictStale_fresh f.timestamp F.fuse_time_interval
            self.prev_world_clouds_ hsortedBuf e
            ((Detect.evictFull_suffix _ _).subset he)
        · simp only [List.mem_singleton] at he
          subst he
          simpa [Detect.toWorldCloud] using hage
      · exact hsorted

/-- C7, as the code has it: for every sequence of `Detect` calls with fusion
enabled, `num_fuse_frames > 1`, `fuse_time_interval ≥ 0` and non-decreasing
timestamps of the committed sweeps, started on an empty buffer, every entry
`e` left in the buffer satisfies `t_last - e.timestamp ≤ fuse_time_interval`,
`t_last` being the timestamp of the last committed sweep. -/
theorem Detect_buffer_fresh {α : Type} [LinearOrderedField α] (m : FloatMath α)
    (T : TypeTables) (F : Flags α) (calls : List (Env α × Option (LidarFrame α)))
    (hfuse : F.enable_fuse_frames = true) (hN : F.num_fuse_frames > 1)
    (hage : 0 ≤ F.fuse_time_interval)
    (hsorted : (Detect.sweepTimestamps calls).Pairwise (· ≤ ·)) :
    ∀ e ∈ (Detect.run m T F { prev_world_clouds_ := [] } calls).prev_world_clouds_,
      ∀ t_last ∈ (Detect.sweepTimestamps calls).getLast?,
        t_last - e.timestamp ≤ F.fuse_time_interval := by
  have h := Detect.run_fresh m T F hfuse hN hage calls { prev_world_clouds_ := [] } []
    (by simp) (by simp) (by simpa using hsorted)
  simpa using h.2


/-- The example frames pass the checks at the head of `Detect`. -/
theorem exampleFrame_accepted (t : ℝ) :
    Detect.accepted exampleEnv (some (exampleFrame t)) = some (exampleFrame t, exampleCloud) := by
  simp [Detect.accepted, exampleFrame, exampleEnv, exampleCloud, PointFCloud.size]

/-- The sweep timestamps of three calls on example frames. -/
theorem exampleFrame_sweepTimestamps (a b c : ℝ) :
    Detect.sweepTimestamps
        [(exampleEnv, some (exampleFrame a)), (exampleEnv, some (exampleFrame b)),
         (exampleEnv, some (exampleFrame c))] = [a, b, c] := by
  simp only [Detect.sweepTimestamps, List.filterMap_cons, List.filterMap_nil,
    exampleFrame_accepted, Option.map_some']
  rfl

/-- C7 fails for timestamps that go back: with `num_fuse_frames = 3` and
`fuse_time_interval = 1`, after sweeps at times 1, 0, 2 the buffer holds the
entries of times 0 and 2, and `2 - 0 > 1`. -/
theorem Detect_buffer_keeps_stale_entry :
    ((Detect.run realMath exampleTables (fusionFlags 3 1) { prev_world_clouds_ := [] }
        [(exampleEnv, some (exampleFrame 1)), (exampleEnv, some (exampleFrame 0)),
         (exampleEnv, some (exampleFrame 2))]).prev_world_clouds_.map fun e => e.timestamp)
      = [0, 2] ∧
    (Detect.sweepTimestamps
        [(exampleEnv, some (exampleFrame 1)), (exampleEnv, some (exampleFrame 0)),
         (exampleEnv, some (exampleFrame 2))]).getLast? = some 2 ∧
    ¬ ((2 : ℝ) - 0 ≤ (fusionFlags 3 1).fuse_time_interval) := by
  refine ⟨?_, ?_, ?_⟩
  · simp only [Detect.run]
    rw [Detect.self_of_accepted _ _ _ _ _ _ _ _ (exampleFrame_accepted 2),
      (Detect.fuse_prev_active _ _ _ _ _ _ rfl (by decide)).1,
      Detect.self_of_accepted _ _ _ _ _ _ _ _ (exampleFrame_accepted 0),
      (Detect.fuse_prev_active _ _ _ _ _ _ rfl (by decide)).1,
      Detect.self_of_accepted _ _ _ _ _ _ _ _ (exampleFrame_accepted 1),
      (Detect.fuse_prev_active _ _ _ _ _ _ rfl (by decide)).1]
    norm_num [Detect.evictStale, Detect.evictFull, Detect.toWorldCloud, fusionFlags, exampleFrame]
  · rw [exampleFrame_sweepTimestamps]
    rfl
  · norm_num [fusionFlags]

/-- C7 amended, on sweeps at times 0, 1, 2 with `num_fuse_frames = 3` and
`fuse_time_interval = 1`: the timestamps are non-decreasing and no entry left
in the buffer is older than the interval. -/
theorem Detect_buffer_fresh_witness :
    (Detect.sweepTimestamps
        [(exampleEnv, some (exampleFrame 0)), (exampleEnv, some (exampleFrame 1)),
         (exampleEnv, some (exampleFrame 2))]).Pairwise (· ≤ ·) ∧
    ∀ e ∈ (Detect.run realMath exampleTables (fusionFlags 3 1) { prev_world_clouds_ := [] }
        [(exampleEnv, some (exampleFrame 0)), (exampleEnv, some (exampleFrame 1)),
         (exampleEnv, some (exampleFrame 2))]).prev_world_clouds_,
      ∀ t_last ∈ (Detect.sweepTimestamps
        [(exampleEnv, some (exampleFrame 0)), (exampleEnv, some (exampleFrame 1)),
         (exampleEnv, some (exampleFrame 2))]).getLast?,
        t_last - e.timestamp ≤ (fusionFlags 3 1).fuse_time_interval :=
  have hsorted : (Detect.sweepTimestamps
      [(exampleEnv, some (exampleFrame 0)), (exampleEnv, some (exampleFrame 1)),
       (exampleEnv, some (exampleFrame 2))]).Pairwise (· ≤ ·) := by
    rw [exampleFrame_sweepTimestamps]; norm_num
  ⟨hsorted, Detect_buffer_fresh realMath exampleTables (fusionFlags 3 1) _ rfl (by decide)
    (by norm_num [fusionFlags]) hsorted⟩


/-- C8: with `num_fuse_frames = 3`, `fuse_time_interval = 0.5` and an empty
buffer, three accepted sweeps at times 0.0, 0.2, 0.6: after two calls the
buffer holds the entries of times 0.0 and 0.2; in the third call the
stale-entry loop leaves only the entry of time 0.2, which is the buffer
`FuseCloud` receives, so every time offset of the fused cloud is 0 or 0.4;
after the third call the timestamps of the buffer are exactly `[0.2, 0.6]`. -/
theorem Detect_fusion_scenario {α : Type} [LinearOrderedField α] (m : FloatMath α)
    (T : TypeTables) (F : Flags α) (E1 E2 E3 : Env α) (f1 f2 f3 : LidarFrame α)
    (c1 c2 c3 : PointFCloud α)
    (hfuse : F.enable_fuse_frames = true) (hN : F.num_fuse_frames = 3)
    (hage : F.fuse_time_interval = 0.5)
    (h1 : Detect.accepted E1 (some f1) = some (f1, c1))
    (h2 : Detect.accepted E2 (some f2) = some (f2, c2))
    (h3 : Detect.accepted E3 (some f3) = some (f3, c3))
    (ht1 : f1.timestamp = 0.0) (ht2 : f2.timestamp = 0.2) (ht3 : f3.timestamp = 0.6) :
    ((Detect.run m T F { prev_world_clouds_ := [] }
        [(E1, some f1), (E2, some f2)]).prev_world_clouds_.map fun e => e.timestamp)
      = [0.0, 0.2] ∧
    ((Detect.evictStale f3.timestamp F.fuse_time_interval
        (Detect.run m T F { prev_world_clouds_ := [] }
          [(E1, some f1), (E2, some f2)]).prev_world_clouds_).map fun e => e.timestamp)
      = [0.2] ∧
    (Detect.fuse F f3.lidar2world_pose f3.timestamp
        (Detect.resetTimestamps (Detect.downsample E3 F c3).1)
        ((Detect.downsample E3 F c3).1.size : Int)
        (Detect.run m T F { prev_world_clouds_ := [] }
          [(E1, some f1), (E2, some f2)]).prev_world_clouds_).cloud
      = FuseCloud f3.lidar2world_pose f3.timestamp
          (Detect.resetTimestamps (Detect.downsample E3 F c3).1)
          (Detect.evictStale f3.timestamp F.fuse_time_interval
            (Detect.run m T F { prev_world_clouds_ := [] }
              [(E1, some f1), (E2, some f2)]).prev_world_clouds_) ∧
    (∀ d ∈ (Detect.fuse F f3.lidar2world_pose f3.timestamp
        (Detect.resetTimestamps (Detect.downsample E3 F c3).1)
        ((Detect.downsample E3 F c3).1.size : Int)
        (Detect.run m T F { prev_world_clouds_ := [] }
          [(E1, some f1), (E2, some f2)]).prev_world_clouds_).cloud.points_timestamp,
      d = 0 ∨ d = 0.4) ∧
    ((Detect.run m T F { prev_world_clouds_ := [] }
        [(E1, some f1), (E2, some f2), (E3, some f3)]).prev_world_clouds_.map
          fun e => e.timestamp)
      = [0.2, 0.6] := by
  have hN1 : F.num_fuse_frames > 1 := by omega
  have s2 : (Detect.run m T F { prev_world_clouds_ := [] }
      [(E1, some f1), (E2, some f2)]).prev_world_clouds_ =
      [Detect.toWorldCloud f1.lidar2world_pose f1.timestamp
          (Detect.resetTimestamps (Detect.downsample E1 F c1).1),
       Detect.toWorldCloud f2.lidar2world_pose f2.timestamp
          (Detect.resetTimestamps (Detect.downsample E2 F c2).1)] := by
    simp only [Detect.run]
    rw [Detect.self_of_accepted _ _ _ _ _ _ _ _ h2,
      (Detect.fuse_prev_active _ _ _ _ _ _ hfuse hN1).1,
      Detect.self_of_accepted _ _ _ _ _ _ _ _ h1,
      (Detect.fuse_prev_active _ _ _ _ _ _ hfuse hN1).1]
    norm_num [Detect.evictStale, Detect.evictFull, Detect.toWorldCloud, hN, hage, ht1, ht2]
  have hstale : Detect.evictStale f3.timestamp F.fuse_time_interval
      (Detect.run m T F { prev_world_clouds_ := [] }
        [(E1, some f1), (E2, some f2)]).prev_world_clouds_ =
      [Detect.toWorldCloud f2.lidar2world_pose f2.timestamp
          (Detect.resetTimestamps (Detect.downsample E2 F c2).1)] := by
    rw [s2]
    norm_num [Detect.evictStale, Detect.toWorldCloud, hage, ht1, ht2, ht3]
  have hfused := (Detect.fuse_prev_active F f3.lidar2world_pose f3.timestamp
    (Detect.resetTimestamps (Detect.downsample E3 F c3).1)
    ((Detect.downsample E3 F c3).1.size : Int)
    (Detect.run m T F { prev_world_clouds_ := [] }
      [(E1, some f1), (E2, some f2)]).prev_world_clouds_ hfuse hN1)
  refine ⟨?_, ?_, hfused.2, ?_, ?_⟩
  · rw [s2]
    simp [Detect.toWorldCloud, ht1, ht2]
  · rw [hstale]
    simp [Detect.toWorldCloud, ht2]
  · rw [hfused.2, hstale, FuseCloud.closed_form]
    intro d hd
    simp only [Detect.resetTimestamps, Detect.toWorldCloud, List.reverse_cons, List.reverse_nil,
      List.nil_append, List.flatMap_cons, List.flatMap_nil, List.append_nil, List.mem_append,
      List.mem_map, List.mem_replicate] at hd
    rcases hd with hd | ⟨_, _, hd⟩
    · exact Or.inl hd.2
    · right
      rw [← hd, ht2, ht3]
      norm_num
  · have hrun : Detect.run m T F { prev_world_clouds_ := [] }
        [(E1, some f1), (E2, some f2), (E3, some f3)] =
        (Detect m T F E3 (Detect.run m T F { prev_world_clouds_ := [] }
          [(E1, some f1), (E2, some f2)]) (some f3)).self := by
      simp only [Detect.run]
    rw [hrun, Detect.self_of_accepted _ _ _ _ _ _ _ _ h3, hfused.1, hstale]
    norm_num [Detect.evictFull, Detect.toWorldCloud, hN, ht2, ht3]

/-- The example flags with `num_fuse_frames = 3` and `fuse_time_interval = 0.5`
on the example frames at times 0.0, 0.2 and 0.6. -/
theorem Detect_fusion_scenario_witness :
    ((Detect.run realMath exampleTables (fusionFlags 3 0.5) { prev_world_clouds_ := [] }
        [(exampleEnv, some (exampleFrame 0.0)), (exampleEnv, some (exampleFrame 0.2)),
         (exampleEnv, some (exampleFrame 0.6))]).prev_world_clouds_.map
          fun e => e.timestamp)
      = [0.2, 0.6] :=
  (Detect_fusion_scenario realMath exampleTables (fusionFlags 3 0.5) exampleEnv exampleEnv
    exampleEnv (exampleFrame 0.0) (exampleFrame 0.2) (exampleFrame 0.6) exampleCloud exampleCloud
    exampleCloud rfl rfl rfl (exampleFrame_accepted _) (exampleFrame_accepted _)
    (exampleFrame_accepted _) rfl rfl rfl).2.2.2.2

/-- C10: in every `Detect` call that passes the checks, with fusion active, the
buffer after the call is what the two eviction loops kept of the old buffer,
followed by one new entry. The new entry is the world-frame projection of the
current cloud as it was before `FuseCloud` ran: one point per point of that
cloud, in the same order, at position `pose p` with the same intensity,
stamped with the timestamp of the sweep. It does not depend on the old buffer,
and the kept entries are old entries unchanged. -/
theorem Detect_commits_current_cloud {α : Type} [LinearOrderedField α] (m : FloatMath α)
    (T : TypeTables) (F : Flags α) (E : Env α) (self : PointPillarsDetection α)
    (frame : Option (LidarFrame α)) (f : LidarFrame α) (c : PointFCloud α)
    (hfuse : F.enable_fuse_frames = true) (hN : F.num_fuse_frames > 1)
    (ha : Detect.accepted E frame = some (f, c)) :
    ∃ dropped kept entry,
      self.prev_world_clouds_ = dropped ++ kept ∧
      (Detect m T F E self frame).self.prev_world_clouds_ = kept ++ [entry] ∧
      entry.timestamp = f.timestamp ∧
      entry.points = (Detect.downsample E F c).1.points.map (fun p =>
        { x := (f.lidar2world_pose.apply { x := p.x, y := p.y, z := p.z }).x
          y := (f.lidar2world_pose.apply { x := p.x, y := p.y, z := p.z }).y
          z := (f.lidar2world_pose.apply { x := p.x, y := p.y, z := p.z }).z
          intensity := p.intensity }) ∧
      entry.points.length = (Detect.downsample E F c).1.size := by
  have hkept : Detect.evictFull F.num_fuse_frames
        (Detect.evictStale f.timestamp F.fuse_time_interval self.prev_world_clouds_)
      <:+ self.prev_world_clouds_ :=
    (Detect.evictFull_suffix _ _).trans (Detect.evictStale_suffix _ _ _)
  obtain ⟨dropped, hdropped⟩ := hkept
  refine ⟨dropped, _, Detect.toWorldCloud f.lidar2world_pose f.timestamp
    (Detect.resetTimestamps (Detect.downsample E F c).1), hdropped.symm, ?_, rfl, rfl, ?_⟩
  · rw [Detect.self_of_accepted m T F E self frame f c ha,
      (Detect.fuse_prev_active _ _ _ _ _ _ hfuse hN).1]
  · simp [Detect.toWorldCloud, Detect.resetTimestamps, PointFCloud.size]


/-- C10 on the example frame at time 2, with a buffer that already holds the
world cloud of a sweep at time 1. -/
theorem Detect_commits_current_cloud_witness :
    ∃ dropped kept entry,
      [Detect.toWorldCloud Affine3.identity 1 exampleCloud] = dropped ++ kept ∧
      (Detect realMath exampleTables (fusionFlags 3 1) exampleEnv
        { prev_world_clouds_ := [Detect.toWorldCloud Affine3.identity 1 exampleCloud] }
        (some (exampleFrame 2))).self.prev_world_clouds_ = kept ++ [entry] ∧
      entry.timestamp = (exampleFrame 2).timestamp ∧
      entry.points = (Detect.downsample exampleEnv (fusionFlags 3 1) exampleCloud).1.points.map
        (fun p =>
          { x := ((exampleFrame 2).lidar2world_pose.apply { x := p.x, y := p.y, z := p.z }).x
            y := ((exampleFrame 2).lidar2world_pose.apply { x := p.x, y := p.y, z := p.z }).y
            z := ((exampleFrame 2).lidar2world_pose.apply { x := p.x, y := p.y, z := p.z }).z
            intensity := p.intensity }) ∧
      entry.points.length = (Detect.downsample exampleEnv (fusionFlags 3 1) exampleCloud).1.size :=
  Detect_commits_current_cloud realMath exampleTables (fusionFlags 3 1) exampleEnv
    { prev_world_clouds_ := [Detect.toWorldCloud Affine3.identity 1 exampleCloud] }
    (some (exampleFrame 2)) (exampleFrame 2) exampleCloud rfl (by decide)
    (exampleFrame_accepted 2)

/-! ## Feature encoding -/

/-- The five writes of one row of `CloudToArray` store the five values of the
row and leave every other entry as it was. -/
theorem CloudToArray.row_written {β : Type} (arr : List β) (i : Nat) (a b c d e : β)
    (h : i * 5 + 4 < arr.length) :
    (((((arr.set (i * 5 + 0) a).set (i * 5 + 1) b).set (i * 5 + 2) c).set (i * 5 + 3) d).set
        (i * 5 + 4) e).length = arr.length ∧
    (((((arr.set (i * 5 + 0) a).set (i * 5 + 1) b).set (i * 5 + 2) c).set (i * 5 + 3) d).set
        (i * 5 + 4) e)[i * 5 + 0]? = some a ∧
    (((((arr.set (i * 5 + 0) a).set (i * 5 + 1) b).set (i * 5 + 2) c).set (i * 5 + 3) d).set
        (i * 5 + 4) e)[i * 5 + 1]? = some b ∧
    (((((arr.set (i * 5 + 0) a).set (i * 5 + 1) b).set (i * 5 + 2) c).set (i * 5 + 3) d).set
        (i * 5 + 4) e)[i * 5 + 2]? = some c ∧
    (((((arr.set (i * 5 + 0) a).set (i * 5 + 1) b).set (i * 5 + 2) c).set (i * 5 + 3) d).set
        (i * 5 + 4) e)[i * 5 + 3]? = some d ∧
    (((((arr.set (i * 5 + 0) a).set (i * 5 + 1) b).set (i * 5 + 2) c).set (i * 5 + 3) d).set
        (i * 5 + 4) e)[i * 5 + 4]? = some e ∧
    ∀ k, k < i * 5 →
      (((((arr.set (i * 5 + 0) a).set (i * 5 + 1) b).set (i * 5 + 2) c).set (i * 5 + 3) d).set
        (i * 5 + 4) e)[k]? = arr[k]? := by
  refine ⟨by simp, ?_, ?_, ?_, ?_, ?_, ?_⟩
  · simp [List.getElem?_set]
    omega
  · simp [List.getElem?_set]
    omega
  · simp [List.getElem?_set]
    omega
  · simp [List.getElem?_set]
    omega
  · simp [List.getElem?_set]
    omega
  · intro k hk
    rw [List.getElem?_set_ne (by omega), List.getElem?_set_ne (by omega),
      List.getElem?_set_ne (by omega), List.getElem?_set_ne (by omega),
      List.getElem?_set_ne (by omega)]

/-- After the first `k` iterations of the loop of `CloudToArray` the array has
kept its length and its rows `0..k-1` hold the features of the points
`0..k-1`. -/
theorem CloudToArray.rows_written {α : Type} [LinearOrderedField α] (F : Flags α)
    (pc : PointFCloud α) (nf : α) (arr0 : List α) (hw : F.num_point_feature = 5)
    (hlen : arr0.length = pc.points.length * 5) :
    ∀ k, k ≤ pc.points.length →
      ((List.range k).foldl
        (fun arr i =>
          match pc.points[i]? with
          | some point =>
            let arr := arr.set (i * F.num_point_feature + 0) point.x
            let arr := arr.set (i * F.num_point_feature + 1) point.y
            let arr := arr.set (i * F.num_point_feature + 2) point.z
            let arr := arr.set (i * F.num_point_feature + 3) (point.intensity / nf)
            arr.set (i * F.num_point_feature + 4) ((pc.points_timestamp[i]?).getD 0)
          | none => arr)
        arr0).length = arr0.length ∧
      ∀ i p, i < k → pc.points[i]? = some p →
        ((List.range k).foldl
          (fun arr i =>
            match pc.points[i]? with
            | some point =>
              let arr := arr.set (i * F.num_point_feature + 0) point.x
              let arr := arr.set (i * F.num_point_feature + 1) point.y
              let arr := arr.set (i * F.num_point_feature + 2) point.z
              let arr := arr.set (i * F.num_point_feature + 3) (point.intensity / nf)
              arr.set (i * F.num_point_feature + 4) ((pc.points_timestamp[i]?).getD 0)
            | none => arr)
          arr0)[i * 5 + 0]? = some p.x ∧
        ((List.range k).foldl
          (fun arr i =>
            match pc.points[i]? with
            | some point =>
              let arr := arr.set (i * F.num_point_feature + 0) point.x
              let arr := arr.set (i * F.num_point_feature + 1) point.y
              let arr := arr.set (i * F.num_point_feature + 2) point.z
              let arr := arr.set (i * F.num_point_feature + 3) (point.intensity / nf)
              arr.set (i * F.num_point_feature + 4) ((pc.points_timestamp[i]?).getD 0)
            | none => arr)
          arr0)[i * 5 + 1]? = some p.y ∧
        ((List.range k).foldl
          (fun arr i =>
            match pc.points[i]? with
            | some point =>
              let arr := arr.set (i * F.num_point_feature + 0) point.x
              let arr := arr.set (i * F.num_point_feature + 1) point.y
              let arr := arr.set (i * F.num_point_feature + 2) point.z
              let arr := arr.set (i * F.num_point_feature + 3) (point.intensity / nf)
              arr.set (i * F.num_point_feature + 4) ((pc.points_timestamp[i]?).getD 0)
            | none => arr)
          arr0)[i * 5 + 2]? = some p.z ∧
        ((List.range k).foldl
          (fun arr i =>
            match pc.points[i]? with
            | some point =>
              let arr := arr.set (i * F.num_point_feature + 0) point.x
              let arr := arr.set (i * F.num_point_feature + 1) point.y
              let arr := arr.set (i * F.num_point_feature + 2) point.z
              let arr := arr.set (i * F.num_point_feature + 3) (point.intensity / nf)
              arr.set (i * F.num_point_feature + 4) ((pc.points_timestamp[i]?).getD 0)
            | none => arr)
          arr0)[i * 5 + 3]? = some (p.intensity / nf) ∧
        ((List.range k).foldl
          (fun arr i =>
            match pc.points[i]? with
            | some point =>
              let arr := arr.set (i * F.num_point_feature + 0) point.x
              let arr := arr.set (i * F.num_point_feature + 1) point.y
              let arr := arr.set (i * F.num_point_feature + 2) point.z
              let arr := arr.set (i * F.num_point_feature + 3) (point.intensity / nf)
              arr.set (i * F.num_point_feature + 4) ((pc.points_timestamp[i]?).getD 0)
            | none => arr)
          arr0)[i * 5 + 4]? = some ((pc.points_timestamp[i]?).getD 0) := by
  revert hw
  generalize F.num_point_feature = w
  intro hw
  subst hw
  intro k
  induction k with
  | zero =>
    intro _
    exact ⟨rfl, fun i p hi => absurd hi (Nat.not_lt_zero i)⟩
  | succ k ih =>
    intro hk
    obtain ⟨ihlen, ihrows⟩ := ih (by omega)
    obtain ⟨q, hq⟩ : ∃ q, pc.points[k]? = some q := ⟨_, List.getElem?_eq_getElem (by omega)⟩
    rw [List.range_succ, List.foldl_append]
    generalize hA : (List.range k).foldl _ arr0 = A at ihlen ihrows ⊢
    simp only [List.foldl_cons, List.foldl_nil, hq]
    obtain ⟨hl, h0, h1, h2, h3, h4, hold⟩ := CloudToArray.row_written A k q.x q.y q.z
      (q.intensity / nf) ((pc.points_timestamp[k]?).getD 0) (by rw [ihlen, hlen]; omega)
    refine ⟨hl.trans ihlen, ?_⟩
    intro i p hi hp
    by_cases hik : i = k
    · subst hik
      rw [hq] at hp
      simp only [Option.some.injEq] at hp
      subst hp
      exact ⟨h0, h1, h2, h3, h4⟩
    · have hlt : i < k := by omega
      obtain ⟨r0, r1, r2, r3, r4⟩ := ihrows i p hlt hp
      rw [hold _ (by omega), hold _ (by omega), hold _ (by omega), hold _ (by omega),
        hold _ (by omega)]
      exact ⟨r0, r1, r2, r3, r4⟩

/-- C11: for a cloud of `n` points (each with its time offset), feature width 5
and a non-zero normalizer, `CloudToArray` leaves in the zero-initialised array
of `n * 5` entries that `Detect` allocates exactly `n * 5` entries, and for
every `i < n` the entries `5i .. 5i+4` are
`x_i, y_i, z_i, intensity_i / normalizer, time_offset_i`. -/
theorem CloudToArray_layout {α : Type} [LinearOrderedField α] (F : Flags α)
    (pc : PointFCloud α) (normalizing_factor : α) (hw : F.num_point_feature = 5)
    (hnorm : normalizing_factor ≠ 0)
    (hts : pc.points_timestamp.length = pc.points.length) :
    (CloudToArray F pc (List.replicate (pc.size * F.num_point_feature) 0)
        normalizing_factor).length = pc.size * 5 ∧
    ∀ i, i < pc.size →
      ∃ p t, pc.points[i]? = some p ∧ pc.points_timestamp[i]? = some t ∧
        (CloudToArray F pc (List.replicate (pc.size * F.num_point_feature) 0)
            normalizing_factor)[i * 5 + 0]? = some p.x ∧
        (CloudToArray F pc (List.replicate (pc.size * F.num_point_feature) 0)
            normalizing_factor)[i * 5 + 1]? = some p.y ∧
        (CloudToArray F pc (List.replicate (pc.size * F.num_point_feature) 0)
            normalizing_factor)[i * 5 + 2]? = some p.z ∧
        (CloudToArray F pc (List.replicate (pc.size * F.num_point_feature) 0)
            normalizing_factor)[i * 5 + 3]? = some (p.intensity / normalizing_factor) ∧
        (CloudToArray F pc (List.replicate (pc.size * F.num_point_feature) 0)
            normalizing_factor)[i * 5 + 4]? = some t := by
  have _ := hnorm
  obtain ⟨hl, hrows⟩ := CloudToArray.rows_written F pc normalizing_factor
    (List.replicate (pc.size * F.num_point_feature) 0) hw
    (by simp [PointFCloud.size, hw]) pc.points.length (le_refl _)
  constructor
  · unfold CloudToArray
    rw [PointFCloud.size] at hl ⊢
    rw [hl]
    simp [hw]
  · intro i hi
    rw [PointFCloud.size] at hi
    obtain ⟨r0, r1, r2, r3, r4⟩ := hrows i pc.points[i] hi (List.getElem?_eq_getElem hi)
    have hit : i < pc.points_timestamp.length := by omega
    rw [List.getElem?_eq_getElem hit] at r4
    refine ⟨pc.points[i], pc.points_timestamp[i], List.getElem?_eq_getElem hi,
      List.getElem?_eq_getElem hit, ?_⟩
    unfold CloudToArray
    rw [PointFCloud.size]
    exact ⟨r0, r1, r2, r3, by simpa using r4⟩

/-- C11 on the points `(1,0,0,10,0)`, `(2,0,0,20,0)`, `(3,0,0,30,0)` with
normalizer 10: the array is `[1,0,0,1,0, 2,0,0,2,0, 3,0,0,3,0]`. -/
theorem CloudToArray_layout_witness :
    (10 : ℝ) ≠ 0 ∧
    CloudToArray exampleFlags exampleCloud3
        (List.replicate (exampleCloud3.size * exampleFlags.num_point_feature) 0) 10
      = [1, 0, 0, 1, 0, 2, 0, 0, 2, 0, 3, 0, 0, 3, 0] := by
  obtain ⟨hl, hrows⟩ := CloudToArray_layout exampleFlags exampleCloud3 10 rfl (by norm_num) rfl
  obtain ⟨p0, t0, hp0, ht0, r0⟩ := hrows 0 (by decide)
  obtain ⟨p1, t1, hp1, ht1, r1⟩ := hrows 1 (by decide)
  obtain ⟨p2, t2, hp2, ht2, r2⟩ := hrows 2 (by decide)
  simp only [exampleCloud3, List.getElem?_cons_zero, List.getElem?_cons_succ,
    Option.some.injEq] at hp0 ht0 hp1 ht1 hp2 ht2
  subst hp0 ht0 hp1 ht1 hp2 ht2
  norm_num at r0 r1 r2
  obtain ⟨a0, a1, a2, a3, a4⟩ := r0
  obtain ⟨b0, b1, b2, b3, b4⟩ := r1
  obtain ⟨c0, c1, c2, c3, c4⟩ := r2
  refine ⟨by norm_num, ?_⟩
  apply List.ext_getElem?
  intro n
  by_cases hn : n < 15
  · interval_cases n <;> simp [*]
  · rw [List.getElem?_eq_none (by rw [hl]; simp [exampleCloud3, PointFCloud.size]; omega),
      List.getElem?_eq_none (by simp; omega)]

/-! ## Input checks -/

/-- C13: `Detect` returns `false` when the frame is null, when its cloud is
null, and when its cloud has no point; in each case the frame (with the
caller's object list `segmented_objects`) and the detector (with the fusion
buffer) are exactly as before the call. -/
theorem Detect_rejects_without_effect {α : Type} [LinearOrderedField α] (m : FloatMath α)
    (T : TypeTables) (F : Flags α) (E : Env α) (self : PointPillarsDetection α)
    (frame : Option (LidarFrame α))
    (h : frame = none ∨ ∃ f, frame = some f ∧
      (f.cloud = none ∨ ∃ c, f.cloud = some c ∧ c.size = 0)) :
    (Detect m T F E self frame).ret = some false ∧
    (Detect m T F E self frame).frame = frame ∧
    (Detect m T F E self frame).self = self := by
  rcases h with rfl | ⟨f, rfl, hc | ⟨c, hc, hsize⟩⟩
  · exact ⟨rfl, rfl, rfl⟩
  · simp [Detect, hc]
  · simp [Detect, hc, hsize]

/-- C13 on a null frame, on a frame with a null cloud and on a frame with an
empty cloud, each holding an object from an earlier call, with one buffered
sweep. -/
theorem Detect_rejects_without_effect_witness :
    ((Detect realMath exampleTables (fusionFlags 3 1) exampleEnv
        { prev_world_clouds_ := [Detect.toWorldCloud Affine3.identity 1 exampleCloud] }
        none).ret = some false ∧
      (Detect realMath exampleTables (fusionFlags 3 1) exampleEnv
        { prev_world_clouds_ := [Detect.toWorldCloud Affine3.identity 1 exampleCloud] }
        none).frame = none ∧
      (Detect realMath exampleTables (fusionFlags 3 1) exampleEnv
        { prev_world_clouds_ := [Detect.toWorldCloud Affine3.identity 1 exampleCloud] }
        none).self
        = { prev_world_clouds_ := [Detect.toWorldCloud Affine3.identity 1 exampleCloud] }) ∧
    ((Detect realMath exampleTables (fusionFlags 3 1) exampleEnv
        { prev_world_clouds_ := [Detect.toWorldCloud Affine3.identity 1 exampleCloud] }
        (some { exampleFrame 2 with cloud := none, segmented_objects := [Object.fresh] })).ret
        = some false ∧
      (Detect realMath exampleTables (fusionFlags 3 1) exampleEnv
        { prev_world_clouds_ := [Detect.toWorldCloud Affine3.identity 1 exampleCloud] }
        (some { exampleFrame 2 with cloud := none, segmented_objects := [Object.fresh] })).frame
        = some { exampleFrame 2 with cloud := none, segmented_objects := [Object.fresh] } ∧
      (Detect realMath exampleTables (fusionFlags 3 1) exampleEnv
        { prev_world_clouds_ := [Detect.toWorldCloud Affine3.identity 1 exampleCloud] }
        (some { exampleFrame 2 with cloud := none, segmented_objects := [Object.fresh] })).self
        = { prev_world_clouds_ := [Detect.toWorldCloud Affine3.identity 1 exampleCloud] }) ∧
    ((Detect realMath exampleTables (fusionFlags 3 1) exampleEnv
        { prev_world_clouds_ := [Detect.toWorldCloud Affine3.identity 1 exampleCloud] }
        (some { exampleFrame 2 with
          cloud := some { points := [], points_timestamp := [] }
          segmented_objects := [Object.fresh] })).ret = some false ∧
      (Detect realMath exampleTables (fusionFlags 3 1) exampleEnv
        { prev_world_clouds_ := [Detect.toWorldCloud Affine3.identity 1 exampleCloud] }
        (some { exampleFrame 2 with
          cloud := some { points := [], points_timestamp := [] }
          segmented_objects := [Object.fresh] })).frame
        = some { exampleFrame 2 with
          cloud := some { points := [], points_timestamp := [] }
          segmented_objects := [Object.fresh] } ∧
      (Detect realMath exampleTables (fusionFlags 3 1) exampleEnv
        { prev_world_clouds_ := [Detect.toWorldCloud Affine3.identity 1 exampleCloud] }
        (some { exampleFrame 2 with
          cloud := some { points := [], points_timestamp := [] }
          segmented_objects := [Object.fresh] })).self
        = { prev_world_clouds_ := [Detect.toWorldCloud Affine3.identity 1 exampleCloud] }) :=
  ⟨Detect_rejects_without_effect _ _ _ _ _ _ (Or.inl rfl),
   Detect_rejects_without_effect _ _ _ _ _ _ (Or.inr ⟨_, rfl, Or.inl rfl⟩),
   Detect_rejects_without_effect _ _ _ _ _ _ (Or.inr ⟨_, rfl, Or.inr ⟨_, rfl, rfl⟩⟩)⟩

/-! ## Fusion switched off -/

/-- C15: when fusion is turned off, or `num_fuse_frames ≤ 1`, the fusion stage
of `Detect` (entered after the reset of the time offsets, lines 119-120)
passes the current cloud through: the buffer is left as it was, the cloud
keeps exactly its points, every time offset is 0 and `num_points` is not
changed; and a whole `Detect` call leaves the detector's buffer as it was. -/
theorem Detect_fusion_pass_through {α : Type} [LinearOrderedField α] (m : FloatMath α)
    (T : TypeTables) (F : Flags α) (E : Env α) (self : PointPillarsDetection α)
    (frame : Option (LidarFrame α)) (pose : Affine3 α) (t : α) (cur : PointFCloud α)
    (n : Int) (buf : List (PointDCloud α))
    (h : F.enable_fuse_frames = false ∨ F.num_fuse_frames ≤ 1) :
    (Detect.fuse F pose t (Detect.resetTimestamps cur) n buf).prev_world_clouds = buf ∧
    (Detect.fuse F pose t (Detect.resetTimestamps cur) n buf).cloud.points = cur.points ∧
    (Detect.fuse F pose t (Detect.resetTimestamps cur) n buf).cloud.points_timestamp
      = List.replicate cur.points.length 0 ∧
    (∀ d ∈ (Detect.fuse F pose t (Detect.resetTimestamps cur) n buf).cloud.points_timestamp,
      d = 0) ∧
    (Detect.fuse F pose t (Detect.resetTimestamps cur) n buf).num_points = n ∧
    (Detect m T F E self frame).self.prev_world_clouds_ = self.prev_world_clouds_ := by
  have hinactive : ¬ (F.enable_fuse_frames = true ∧ F.num_fuse_frames > 1) := by
    rintro ⟨h1, h2⟩
    rcases h with h | h
    · rw [h] at h1; exact Bool.noConfusion h1
    · omega
  obtain ⟨hprev, hcloud, hnum⟩ :=
    Detect.fuse_inactive F pose t (Detect.resetTimestamps cur) n buf hinactive
  refine ⟨hprev, by rw [hcloud]; rfl, by rw [hcloud]; rfl, ?_, hnum, ?_⟩
  · rw [hcloud]
    intro d hd
    exact (List.mem_replicate.mp hd).2
  · cases ha : Detect.accepted E frame with
    | none => rw [Detect.self_of_rejected m T F E self frame ha]
    | some a =>
      obtain ⟨f, c⟩ := a
      rw [Detect.self_of_accepted m T F E self frame f c ha]
      exact (Detect.fuse_inactive F _ _ _ _ _ hinactive).1

/-- C15 with fusion turned off (`exampleFlags`) on the example frame and a
buffer of one entry. -/
theorem Detect_fusion_pass_through_witness :
    (Detect.fuse exampleFlags Affine3.identity 2 (Detect.resetTimestamps exampleCloud3) 3
        [Detect.toWorldCloud Affine3.identity 1 exampleCloud]).prev_world_clouds
      = [Detect.toWorldCloud Affine3.identity 1 exampleCloud] ∧
    (Detect.fuse exampleFlags Affine3.identity 2 (Detect.resetTimestamps exampleCloud3) 3
        [Detect.toWorldCloud Affine3.identity 1 exampleCloud]).cloud.points
      = exampleCloud3.points ∧
    (Detect.fuse exampleFlags Affine3.identity 2 (Detect.resetTimestamps exampleCloud3) 3
        [Detect.toWorldCloud Affine3.identity 1 exampleCloud]).cloud.points_timestamp
      = [0, 0, 0] ∧
    (Detect realMath exampleTables exampleFlags exampleEnv
        { prev_world_clouds_ := [Detect.toWorldCloud Affine3.identity 1 exampleCloud] }
        (some (exampleFrame 2))).self.prev_world_clouds_
      = [Detect.toWorldCloud Affine3.identity 1 exampleCloud] :=
  have h := Detect_fusion_pass_through realMath exampleTables exampleFlags exampleEnv
    { prev_world_clouds_ := [Detect.toWorldCloud Affine3.identity 1 exampleCloud] }
    (some (exampleFrame 2)) Affine3.identity 2 exampleCloud3 3
    [Detect.toWorldCloud Affine3.identity 1 exampleCloud] (Or.inl rfl)
  ⟨h.1, h.2.1, h.2.2.1, h.2.2.2.2.2⟩

/-! ## The commit step against its specification -/

/-- The size loop of the code, run before the append, and the eviction of the
specification, run after it, keep the same entries. -/
theorem Detect.evictFull_append_eq_specEvict {α : Type} [LinearOrderedField α] (N : Int)
    (hN : 2 ≤ N) (entry : PointDCloud α) :
    ∀ buf : List (PointDCloud α),
      Detect.evictFull N buf ++ [entry] = specEvict N (buf ++ [entry]) := by
  intro buf
  induction buf with
  | nil =>
    have h1 : (1 : Int) ≤ N - 1 := by omega
    simp [Detect.evictFull, specEvict, h1]
  | cons front rest ih =>
    rw [List.cons_append]
    unfold Detect.evictFull specEvict
    by_cases hc : ((front :: rest).length : Int) ≥ N - 1
    · have hs : ¬ (((front :: (rest ++ [entry])).length : Int) ≤ N - 1) := by
        simp only [List.length_cons, List.length_append, List.length_nil] at hc ⊢
        push_cast at hc ⊢
        omega
      rw [if_pos hc, if_neg hs]
      exact ih
    · have hs : ((front :: (rest ++ [entry])).length : Int) ≤ N - 1 := by
        simp only [List.length_cons, List.length_append, List.length_nil] at hc ⊢
        push_cast at hc ⊢
        omega
      rw [if_neg hc, if_pos hs]
      rfl

/-- C17: for every `N = num_fuse_frames ≥ 2` and every buffer, the commit step
as coded (pop from the front while the size is at least `N - 1`, then append
the world cloud of the current sweep) leaves exactly the buffer of the commit
step as specified (append, then pop from the front until the size is at most
`N - 1`); the new entry is the last entry of both, so it is never evicted; and
with fusion active this is the buffer the fusion stage of `Detect` leaves. -/
theorem Detect_commit_refines_spec {α : Type} [LinearOrderedField α] (F : Flags α)
    (pose : Affine3 α) (t : α) (cur : PointFCloud α) (n : Int) (buf : List (PointDCloud α))
    (entry : PointDCloud α) (hN : 2 ≤ F.num_fuse_frames) :
    Detect.evictFull F.num_fuse_frames buf ++ [entry] = specCommit F.num_fuse_frames buf entry ∧
    (specCommit F.num_fuse_frames buf entry).getLast? = some entry ∧
    (F.enable_fuse_frames = true →
      (Detect.fuse F pose t cur n buf).prev_world_clouds =
        specCommit F.num_fuse_frames (Detect.evictStale t F.fuse_time_interval buf)
          (Detect.toWorldCloud pose t cur)) := by
  have key := @Detect.evictFull_append_eq_specEvict α _ F.num_fuse_frames hN
  refine ⟨key entry buf, ?_, ?_⟩
  · rw [specCommit, ← key entry buf, List.getLast?_concat]
  · intro hfuse
    rw [(Detect.fuse_prev_active F pose t cur n buf hfuse (by omega)).1, specCommit, key]

/-- C17 with `num_fuse_frames = 2` on a buffer of one entry: both commit steps
leave the new entry alone. -/
theorem Detect_commit_refines_spec_witness :
    Detect.evictFull (fusionFlags 2 1).num_fuse_frames
        [Detect.toWorldCloud Affine3.identity 1 exampleCloud]
        ++ [Detect.toWorldCloud Affine3.identity 2 exampleCloud]
      = specCommit (fusionFlags 2 1).num_fuse_frames
          [Detect.toWorldCloud Affine3.identity 1 exampleCloud]
          (Detect.toWorldCloud Affine3.identity 2 exampleCloud) ∧
    specCommit (fusionFlags 2 1).num_fuse_frames
        [Detect.toWorldCloud Affine3.identity 1 exampleCloud]
        (Detect.toWorldCloud Affine3.identity 2 exampleCloud)
      = [Detect.toWorldCloud Affine3.identity 2 exampleCloud] :=
  have h := Detect_commit_refines_spec (fusionFlags 2 1) Affine3.identity 2 exampleCloud 1
    [Detect.toWorldCloud Affine3.identity 1 exampleCloud]
    (Detect.toWorldCloud Affine3.identity 2 exampleCloud) (by decide)
  ⟨h.1, by simp [specCommit, specEvict, fusionFlags]⟩

/-! ## Point count and sampling -/

/-- The count loop of the fusion stage adds the sizes of the buffered clouds. -/
theorem Detect.count_loop {α : Type} (prev : List (PointDCloud α)) :
    ∀ n : Int, prev.foldl (fun n c => n + (c.points.length : Int)) n
      = n + ((prev.map fun e => e.points.length).sum : Nat) := by
  induction prev with
  | nil => intro n; simp
  | cons c rest ih =>
    intro n
    rw [List.foldl_cons, ih]
    simp only [List.map_cons, List.sum_cons]
    push_cast
    ring

/-- After the fusion stage `num_points` is the size of the current cloud, and
the cloud has one time offset per point. -/
theorem Detect.fuse_num_points {α : Type} [LinearOrderedField α] (F : Flags α)
    (pose : Affine3 α) (t : α) (cur : PointFCloud α) (buf : List (PointDCloud α)) :
    (Detect.fuse F pose t (Detect.resetTimestamps cur) (cur.size : Int) buf).num_points
      = ((Detect.fuse F pose t (Detect.resetTimestamps cur) (cur.size : Int) buf).cloud.size
          : Int) ∧
    (Detect.fuse F pose t (Detect.resetTimestamps cur) (cur.size : Int)
        buf).cloud.points_timestamp.length
      = (Detect.fuse F pose t (Detect.resetTimestamps cur) (cur.size : Int)
        buf).cloud.points.length := by
  by_cases h : F.enable_fuse_frames = true ∧ F.num_fuse_frames > 1
  · simp only [Detect.fuse, h, and_self, if_true]
    rw [Detect.count_loop, FuseCloud.closed_form]
    simp only [PointFCloud.size, Detect.resetTimestamps, List.length_append,
      List.length_flatMap, List.length_map, List.map_reverse, List.sum_reverse,
      Function.comp_def, List.length_replicate]
    exact ⟨by push_cast; rfl, trivial⟩
  · obtain ⟨-, hcloud, hnum⟩ :=
      Detect.fuse_inactive F pose t (Detect.resetTimestamps cur) (cur.size : Int) buf h
    rw [hcloud, hnum]
    simp [PointFCloud.size, Detect.resetTimestamps]

/-- A singleton per element, flattened, is the mapped list. -/
theorem flatMap_singleton_eq_map {β γ : Type} (f : β → γ) (l : List β) :
    (l.flatMap fun a => [f a]) = l.map f := by
  induction l with
  | nil => rfl
  | cons a rest ih => simp [List.flatMap_cons, ih]

/-- `GenerateIndices(0, size, true)` with `size ≥ 0` is the shuffle of
`0, 1, ..., size - 1`. -/
theorem GenerateIndices.eq_shuffle_range {α : Type} [LinearOrderedField α] (E : Env α)
    (size : Int) (hsize : 0 ≤ size) :
    GenerateIndices E 0 size true = some (E.shuffle ((List.range size.toNat).map Int.ofNat)) := by
  have hneg : ¬ size < 0 := by omega
  simp only [GenerateIndices, hneg, if_false, if_true]
  congr 2
  simp [flatMap_singleton_eq_map]

/-- Reading a list at the indices `0 .. m-1` gives its first `m` entries. -/
theorem map_getD_range {β : Type} (l : List β) (d : β) :
    ∀ m, m ≤ l.length →
      ((List.range m).map Int.ofNat).map (fun k : Int => (l[k.toNat]?).getD d) = l.take m := by
  intro m
  induction m with
  | zero => intro _; simp
  | succ m ih =>
    intro hm
    have hlt : m < l.length := by omega
    rw [List.range_succ, List.map_append, List.map_append, ih (by omega), List.take_succ,
      List.getElem?_eq_getElem hlt]
    simp [List.getElem?_eq_getElem hlt]

/-- The shuffle stage on a cloud with its own size as `num_points`, when the
shuffle is enabled and `max_num_points ≥ 0`. -/
theorem Detect.shuffle_enabled {α : Type} [LinearOrderedField α] (E : Env α) (F : Flags α)
    (cur : PointFCloud α) (hs : F.enable_shuffle_points = true) (hmax : 0 ≤ F.max_num_points) :
    Detect.shuffle E F cur (cur.size : Int) =
      some (cur.copyIndices (E.shuffle ((List.range
          (min (cur.size : Int) F.max_num_points).toNat).map Int.ofNat)),
        min (cur.size : Int) F.max_num_points) := by
  have hnonneg : 0 ≤ min (cur.size : Int) F.max_num_points := by
    have : (0 : Int) ≤ (cur.size : Int) := Int.ofNat_nonneg _
    omega
  simp only [Detect.shuffle, hs, if_true, GenerateIndices.eq_shuffle_range E _ hnonneg]

/-- C12: with the shuffle enabled, `max_num_points ≥ 0` and `std::shuffle`
permuting its input, the shuffle stage of `Detect`, applied to the cloud and
the count the fusion stage leaves, returns a cloud of exactly
`min(|cloud|, max_num_points)` points: never more than `max_num_points`, and
`|cloud|` points when `|cloud| ≤ max_num_points`. -/
theorem Detect_sample_size {α : Type} [LinearOrderedField α] (E : Env α) (F : Flags α)
    (pose : Affine3 α) (t : α) (cur : PointFCloud α) (buf : List (PointDCloud α))
    (fused : FuseState α)
    (hf : fused = Detect.fuse F pose t (Detect.resetTimestamps cur) (cur.size : Int) buf)
    (hperm : ∀ l, (E.shuffle l).Perm l)
    (hs : F.enable_shuffle_points = true) (hmax : 0 ≤ F.max_num_points) :
    ∃ sampled,
      Detect.shuffle E F fused.cloud fused.num_points
        = some (sampled, min (fused.cloud.size : Int) F.max_num_points) ∧
      (sampled.size : Int) = min (fused.cloud.size : Int) F.max_num_points ∧
      (sampled.size : Int) ≤ F.max_num_points ∧
      ((fused.cloud.size : Int) ≤ F.max_num_points → sampled.size = fused.cloud.size) := by
  have hnum : fused.num_points = (fused.cloud.size : Int) := by
    rw [hf]; exact (Detect.fuse_num_points F pose t cur buf).1
  have hstage := Detect.shuffle_enabled E F fused.cloud hs hmax
  have hsize : ((fused.cloud.copyIndices (E.shuffle ((List.range
      (min (fused.cloud.size : Int) F.max_num_points).toNat).map Int.ofNat))).size : Int)
      = min (fused.cloud.size : Int) F.max_num_points := by
    have h0 : (0 : Int) ≤ (fused.cloud.size : Int) := Int.ofNat_nonneg _
    simp only [PointFCloud.size, PointFCloud.copyIndices, List.length_map,
      (hperm _).length_eq, List.length_range]
    simp only [PointFCloud.size] at h0
    exact Int.toNat_of_nonneg (by omega)
  refine ⟨_, by rw [hnum]; exact hstage, hsize, ?_, ?_⟩
  · rw [hsize]; exact min_le_right _ _
  · intro hle
    have h2 := hsize.trans (min_eq_left hle)
    exact_mod_cast h2

/-- C12 on the three-point cloud with `max_num_points = 2` and fusion off: the
sampled cloud has two points. -/
theorem Detect_sample_size_witness :
    ∃ sampled,
      Detect.shuffle exampleEnv
          { exampleFlags with enable_shuffle_points := true, max_num_points := 2 }
          (Detect.resetTimestamps exampleCloud3) 3 = some (sampled, 2) ∧
      sampled.size = 2 := by
  obtain ⟨sampled, h1, h2, -, -⟩ := Detect_sample_size exampleEnv
    { exampleFlags with enable_shuffle_points := true, max_num_points := 2 }
    Affine3.identity 0 exampleCloud3 []
    { cloud := Detect.resetTimestamps exampleCloud3, num_points := 3, prev_world_clouds := [] }
    rfl (fun l => List.Perm.refl l) rfl (by decide)
  refine ⟨sampled, ?_, ?_⟩
  · simpa [exampleCloud3, Detect.resetTimestamps, PointFCloud.size] using h1
  · have h3 : (sampled.size : Int) = 2 := by
      simpa [exampleCloud3, Detect.resetTimestamps, PointFCloud.size] using h2
    exact_mod_cast h3

/-- C18: with the shuffle enabled, `max_num_points ≥ 0` and `std::shuffle`
permuting its input, the indices are a permutation of `0 .. m-1` for
`m = min(|cloud|, max_num_points)`, and the sampled cloud is a rearrangement of
the first `m` points of the cloud (each with its time offset), each taken
once. Every selected index is below `max_num_points`: of a cloud with more
than `max_num_points` points, no point at an index `≥ max_num_points` is
selected. -/
theorem Detect_sample_rearranges_prefix {α : Type} [LinearOrderedField α] (E : Env α)
    (F : Flags α) (pose : Affine3 α) (t : α) (cur : PointFCloud α)
    (buf : List (PointDCloud α)) (fused : FuseState α)
    (hf : fused = Detect.fuse F pose t (Detect.resetTimestamps cur) (cur.size : Int) buf)
    (hperm : ∀ l, (E.shuffle l).Perm l)
    (hs : F.enable_shuffle_points = true) (hmax : 0 ≤ F.max_num_points) :
    ∃ sampled indices,
      GenerateIndices E 0 (min (fused.cloud.size : Int) F.max_num_points) true = some indices ∧
      indices.Perm ((List.range (min (fused.cloud.size : Int) F.max_num_points).toNat).map
        Int.ofNat) ∧
      Detect.shuffle E F fused.cloud fused.num_points
        = some (sampled, min (fused.cloud.size : Int) F.max_num_points) ∧
      sampled = fused.cloud.copyIndices indices ∧
      (sampled.points.zip sampled.points_timestamp).Perm
        ((fused.cloud.points.take (min (fused.cloud.size : Int) F.max_num_points).toNat).zip
          (fused.cloud.points_timestamp.take
            (min (fused.cloud.size : Int) F.max_num_points).toNat)) ∧
      sampled.points.Perm
        (fused.cloud.points.take (min (fused.cloud.size : Int) F.max_num_points).toNat) ∧
      ∀ k ∈ indices, 0 ≤ k ∧ k < F.max_num_points ∧ k < (fused.cloud.size : Int) := by
  have hnum : fused.num_points = (fused.cloud.size : Int) := by
    rw [hf]; exact (Detect.fuse_num_points F pose t cur buf).1
  have hts : fused.cloud.points_timestamp.length = fused.cloud.points.length := by
    rw [hf]; exact (Detect.fuse_num_points F pose t cur buf).2
  have h0 : (0 : Int) ≤ (fused.cloud.size : Int) := Int.ofNat_nonneg _
  have hnonneg : 0 ≤ min (fused.cloud.size : Int) F.max_num_points := by omega
  have hm : (min (fused.cloud.size : Int) F.max_num_points).toNat ≤ fused.cloud.points.length := by
    simp only [PointFCloud.size] at h0 ⊢
    omega
  have hp := hperm ((List.range (min (fused.cloud.size : Int) F.max_num_points).toNat).map
    Int.ofNat)
  refine ⟨_, _, GenerateIndices.eq_shuffle_range E _ hnonneg, hp,
    by rw [hnum]; exact Detect.shuffle_enabled E F fused.cloud hs hmax, rfl, ?_, ?_, ?_⟩
  · simp only [PointFCloud.copyIndices]
    rw [List.zip_map']
    refine (hp.map _).trans ?_
    rw [← List.zip_map', map_getD_range _ _ _ hm, map_getD_range _ _ _ (by rw [hts]; exact hm)]
  · simp only [PointFCloud.copyIndices]
    refine (hp.map _).trans ?_
    rw [map_getD_range _ _ _ hm]
  · intro k hk
    have hk2 := hp.subset hk
    rw [List.mem_map] at hk2
    obtain ⟨j, hj, rfl⟩ := hk2
    rw [List.mem_range] at hj
    simp only [Int.ofNat_eq_coe]
    omega

/-- C18 on the three-point cloud with `max_num_points = 2` and a shuffle that
reverses: the sample is the second point followed by the first; the third is
not selected. -/
theorem Detect_sample_rearranges_prefix_witness :
    ∃ sampled,
      Detect.shuffle { exampleEnv with shuffle := List.reverse }
          { exampleFlags with enable_shuffle_points := true, max_num_points := 2 }
          (Detect.resetTimestamps exampleCloud3) 3 = some (sampled, 2) ∧
      sampled.points.Perm (exampleCloud3.points.take 2) ∧
      sampled.points =
        [{ x := 2, y := 0, z := 0, intensity := 20 }, { x := 1, y := 0, z := 0, intensity := 10 }]
      := by
  obtain ⟨sampled, indices, h1, h2, h3, h4, -, h6, -⟩ := Detect_sample_rearranges_prefix
    { exampleEnv with shuffle := List.reverse }
    { exampleFlags with enable_shuffle_points := true, max_num_points := 2 }
    Affine3.identity 0 exampleCloud3 []
    { cloud := Detect.resetTimestamps exampleCloud3, num_points := 3, prev_world_clouds := [] }
    rfl (fun l => List.reverse_perm l) rfl (by decide)
  have hidx : indices = [1, 0] := by
    have h1b : GenerateIndices { exampleEnv with shuffle := List.reverse } 0 2 true
        = some indices := by
      simpa [exampleCloud3, Detect.resetTimestamps, PointFCloud.size] using h1
    rw [GenerateIndices.eq_shuffle_range _ _ (by decide)] at h1b
    simp only [Option.some.injEq] at h1b
    rw [← h1b]
    decide
  refine ⟨sampled, ?_, ?_, ?_⟩
  · simpa [exampleCloud3, Detect.resetTimestamps, PointFCloud.size] using h3
  · simpa [exampleCloud3, Detect.resetTimestamps, PointFCloud.size] using h6
  · rw [h4, hidx]
    simp [PointFCloud.copyIndices, Detect.resetTimestamps, exampleCloud3]

/-- The 32-bit product of line 171 is the exact product when that fits. -/
theorem toInt32_of_fits (x : Int) (h0 : 0 ≤ x) (h1 : x < 2 ^ 31) : toInt32 x = x := by
  unfold toInt32
  rw [Int.emod_eq_of_lt (by omega) (by omega)]
  omega

/-- The array of line 171 when the product of the count and the feature width
fits a 32-bit `int`. -/
theorem Detect.points_array_of_fits {α : Type} [LinearOrderedField α] (F : Flags α) (n : Nat)
    (hfit : (n : Int) * (F.num_point_feature : Int) < 2 ^ 31) :
    Detect.points_array F (n : Int)
      = some (List.replicate (n * F.num_point_feature) (0 : α)) := by
  have h0 : (0 : Int) ≤ (n : Int) * (F.num_point_feature : Int) :=
    Int.mul_nonneg (Int.ofNat_nonneg n) (Int.ofNat_nonneg F.num_point_feature)
  have hprod : ((n : Int) * (F.num_point_feature : Int)).toNat = n * F.num_point_feature := by
    rw [← Nat.cast_mul, Int.toNat_ofNat]
  simp only [Detect.points_array, toInt32_of_fits _ h0 hfit, hprod]
  rw [if_neg (by omega)]

/-- The value `Detect` returns on a call that passes the checks, given what the
shuffle stage hands on: the array of line 171 is allocated for `num_points`
rows, filled by `CloudToArray` from `cloud`, and `num_points` is the count
passed to the inference engine; when the allocation throws, so does
`Detect`. -/
theorem Detect.ret_of_accepted {α : Type} [LinearOrderedField α] (m : FloatMath α)
    (T : TypeTables) (F : Flags α) (E : Env α) (self : PointPillarsDetection α)
    (frame : Option (LidarFrame α)) (f : LidarFrame α) (c : PointFCloud α)
    (cloud : PointFCloud α) (num_points : Int)
    (ha : Detect.accepted E frame = some (f, c))
    (hshuffle : Detect.shuffle E F
      (Detect.fuse F f.lidar2world_pose f.timestamp
        (Detect.resetTimestamps (Detect.downsample E F c).1)
        ((Detect.downsample E F c).1.size : Int) self.prev_world_clouds_).cloud
      (Detect.fuse F f.lidar2world_pose f.timestamp
        (Detect.resetTimestamps (Detect.downsample E F c).1)
        ((Detect.downsample E F c).1.size : Int) self.prev_world_clouds_).num_points
      = some (cloud, num_points)) :
    (Detect m T F E self frame).ret =
      match Detect.points_array F num_points with
      | none => none
      | some points_array =>
        match GetObjects m F T f.lidar2world_pose
          (E.DoInference (CloudToArray F cloud points_array F.normalizing_factor) num_points).1
          (E.DoInference (CloudToArray F cloud points_array F.normalizing_factor) num_points).2
          with
        | Except.ok _ => some true
        | Except.error _ => none := by
  unfold Detect.accepted at ha
  unfold Detect
  split at ha
  · simp at ha
  · rename_i fr
    split at ha
    · simp at ha
    · rename_i oc hoc
      simp only [hoc]
      split at ha
      · simp at ha
      · rename_i hsz
        split at ha
        · simp at ha
        · rename_i hcuda
          simp only [Option.some.injEq, Prod.mk.injEq] at ha
          obtain ⟨rfl, rfl⟩ := ha
          rw [if_neg hsz, if_neg hcuda]
          simp only [hshuffle]
          generalize Detect.points_array F num_points = pa
          cases pa with
          | none => rfl
          | some arr =>
            simp only []
            split <;> rename_i h <;> simp only [h]

/-- The cloud the caller's frame holds after a call that passes the checks:
the fused cloud while `cur_cloud_ptr_` is still the frame's own cloud, and the
original cloud once a down-sampling stage has replaced the pointer. -/
theorem Detect.frame_cloud_of_accepted {α : Type} [LinearOrderedField α] (m : FloatMath α)
    (T : TypeTables) (F : Flags α) (E : Env α) (self : PointPillarsDetection α)
    (frame : Option (LidarFrame α)) (f : LidarFrame α) (c : PointFCloud α)
    (ha : Detect.accepted E frame = some (f, c)) :
    (Detect m T F E self frame).frame.bind (fun fr => fr.cloud) =
      if (Detect.downsample E F c).2 = true then
        some (Detect.fuse F f.lidar2world_pose f.timestamp
          (Detect.resetTimestamps (Detect.downsample E F c).1)
          ((Detect.downsample E F c).1.size : Int) self.prev_world_clouds_).cloud
      else some c := by
  unfold Detect.accepted at ha
  unfold Detect
  split at ha
  · simp at ha
  · rename_i fr
    split at ha
    · simp at ha
    · rename_i oc hoc
      simp only [hoc]
      split at ha
      · simp at ha
      · rename_i hsz
        split at ha
        · simp at ha
        · rename_i hcuda
          simp only [Option.some.injEq, Prod.mk.injEq] at ha
          obtain ⟨rfl, rfl⟩ := ha
          rw [if_neg hsz, if_neg hcuda]
          split
          · rfl
          · split
            · rfl
            · split <;> rfl

/-- The size of the cloud the shuffle stage copies out of `cur`. -/
theorem Detect.sampled_size {α : Type} [LinearOrderedField α] (E : Env α) (F : Flags α)
    (cur : PointFCloud α) (hperm : ∀ l, (E.shuffle l).Perm l) (hmax : 0 ≤ F.max_num_points) :
    ((cur.copyIndices (E.shuffle ((List.range
      (min (cur.size : Int) F.max_num_points).toNat).map Int.ofNat))).size : Int)
      = min (cur.size : Int) F.max_num_points := by
  have h0 : (0 : Int) ≤ (cur.size : Int) := Int.ofNat_nonneg _
  simp only [PointFCloud.size, PointFCloud.copyIndices, List.length_map,
    (hperm _).length_eq, List.length_range]
  simp only [PointFCloud.size] at h0
  exact Int.toNat_of_nonneg (by omega)

/-- Five writes at consecutive indices from `b` store their five values and
leave every entry below `b` as it was. -/
theorem CloudToArray.row_written_at {β : Type} (arr : List β) (b : Nat) (v0 v1 v2 v3 v4 : β)
    (h : b + 4 < arr.length) :
    (((((arr.set (b + 0) v0).set (b + 1) v1).set (b + 2) v2).set (b + 3) v3).set
        (b + 4) v4).length = arr.length ∧
    (((((arr.set (b + 0) v0).set (b + 1) v1).set (b + 2) v2).set (b + 3) v3).set
        (b + 4) v4)[b + 0]? = some v0 ∧
    (((((arr.set (b + 0) v0).set (b + 1) v1).set (b + 2) v2).set (b + 3) v3).set
        (b + 4) v4)[b + 1]? = some v1 ∧
    (((((arr.set (b + 0) v0).set (b + 1) v1).set (b + 2) v2).set (b + 3) v3).set
        (b + 4) v4)[b + 2]? = some v2 ∧
    (((((arr.set (b + 0) v0).set (b + 1) v1).set (b + 2) v2).set (b + 3) v3).set
        (b + 4) v4)[b + 3]? = some v3 ∧
    (((((arr.set (b + 0) v0).set (b + 1) v1).set (b + 2) v2).set (b + 3) v3).set
        (b + 4) v4)[b + 4]? = some v4 ∧
    ∀ k, k < b →
      (((((arr.set (b + 0) v0).set (b + 1) v1).set (b + 2) v2).set (b + 3) v3).set
        (b + 4) v4)[k]? = arr[k]? := by
  refine ⟨by simp, ?_, ?_, ?_, ?_, ?_, ?_⟩
  · simp [List.getElem?_set]
    omega
  · simp [List.getElem?_set]
    omega
  · simp [List.getElem?_set]
    omega
  · simp [List.getElem?_set]
    omega
  · simp [List.getElem?_set]
    omega
  · intro k hk
    rw [List.getElem?_set_ne (by omega), List.getElem?_set_ne (by omega),
      List.getElem?_set_ne (by omega), List.getElem?_set_ne (by omega),
      List.getElem?_set_ne (by omega)]

/-- The loop of `CloudToArray` with any feature width of at least 5, on an array
of one row per point: after the first `k` iterations the array has kept its
length and its rows `0..k-1` hold the features of the points `0..k-1`, each
row starting at `i * num_point_feature`. -/
theorem CloudToArray.rows_written_wide {α : Type} [LinearOrderedField α] (F : Flags α)
    (pc : PointFCloud α) (nf : α) (arr0 : List α) (hw : 5 ≤ F.num_point_feature)
    (hlen : arr0.length = pc.points.length * F.num_point_feature) :
    ∀ k, k ≤ pc.points.length →
      ((List.range k).foldl
        (fun arr i =>
          match pc.points[i]? with
          | some point =>
            let arr := arr.set (i * F.num_point_feature + 0) point.x
            let arr := arr.set (i * F.num_point_feature + 1) point.y
            let arr := arr.set (i * F.num_point_feature + 2) point.z
            let arr := arr.set (i * F.num_point_feature + 3) (point.intensity / nf)
            arr.set (i * F.num_point_feature + 4) ((pc.points_timestamp[i]?).getD 0)
          | none => arr)
        arr0).length = arr0.length ∧
      ∀ i p, i < k → pc.points[i]? = some p →
        ((List.range k).foldl
          (fun arr i =>
            match pc.points[i]? with
            | some point =>
              let arr := arr.set (i * F.num_point_feature + 0) point.x
              let arr := arr.set (i * F.num_point_feature + 1) point.y
              let arr := arr.set (i * F.num_point_feature + 2) point.z
              let arr := arr.set (i * F.num_point_feature + 3) (point.intensity / nf)
              arr.set (i * F.num_point_feature + 4) ((pc.points_timestamp[i]?).getD 0)
            | none => arr)
          arr0)[i * F.num_point_feature + 0]? = some p.x ∧
        ((List.range k).foldl
          (fun arr i =>
            match pc.points[i]? with
            | some point =>
              let arr := arr.set (i * F.num_point_feature + 0) point.x
              let arr := arr.set (i * F.num_point_feature + 1) point.y
              let arr := arr.set (i * F.num_point_feature + 2) point.z
              let arr := arr.set (i * F.num_point_feature + 3) (point.intensity / nf)
              arr.set (i * F.num_point_feature + 4) ((pc.points_timestamp[i]?).getD 0)
            | none => arr)
          arr0)[i * F.num_point_feature + 1]? = some p.y ∧
        ((List.range k).foldl
          (fun arr i =>
            match pc.points[i]? with
            | some point =>
              let arr := arr.set (i * F.num_point_feature + 0) point.x
              let arr := arr.set (i * F.num_point_feature + 1) point.y
              let arr := arr.set (i * F.num_point_feature + 2) point.z
              let arr := arr.set (i * F.num_point_feature + 3) (point.intensity / nf)
              arr.set (i * F.num_point_feature + 4) ((pc.points_timestamp[i]?).getD 0)
            | none => arr)
          arr0)[i * F.num_point_feature + 2]? = some p.z ∧
        ((List.range k).foldl
          (fun arr i =>
            match pc.points[i]? with
            | some point =>
              let arr := arr.set (i * F.num_point_feature + 0) point.x
              let arr := arr.set (i * F.num_point_feature + 1) point.y
              let arr := arr.set (i * F.num_point_feature + 2) point.z
              let arr := arr.set (i * F.num_point_feature + 3) (point.intensity / nf)
              arr.set (i * F.num_point_feature + 4) ((pc.points_timestamp[i]?).getD 0)
            | none => arr)
          arr0)[i * F.num_point_feature + 3]? = some (p.intensity / nf) ∧
        ((List.range k).foldl
          (fun arr i =>
            match pc.points[i]? with
            | some point =>
              let arr := arr.set (i * F.num_point_feature + 0) point.x
              let arr := arr.set (i * F.num_point_feature + 1) point.y
              let arr := arr.set (i * F.num_point_feature + 2) point.z
              let arr := arr.set (i * F.num_point_feature + 3) (point.intensity / nf)
              arr.set (i * F.num_point_feature + 4) ((pc.points_timestamp[i]?).getD 0)
            | none => arr)
          arr0)[i * F.num_point_feature + 4]? = some ((pc.points_timestamp[i]?).getD 0) := by
  intro k
  induction k with
  | zero =>
    intro _
    exact ⟨rfl, fun i p hi => absurd hi (Nat.not_lt_zero i)⟩
  | succ k ih =>
    intro hk
    obtain ⟨ihlen, ihrows⟩ := ih (by omega)
    obtain ⟨q, hq⟩ : ∃ q, pc.points[k]? = some q := ⟨_, List.getElem?_eq_getElem (by omega)⟩
    rw [List.range_succ, List.foldl_append]
    generalize hA : (List.range k).foldl _ arr0 = A at ihlen ihrows ⊢
    simp only [List.foldl_cons, List.foldl_nil, hq]
    have hrow : (k + 1) * F.num_point_feature ≤ pc.points.length * F.num_point_feature :=
      Nat.mul_le_mul_right _ hk
    rw [Nat.add_mul, Nat.one_mul] at hrow
    obtain ⟨hl, h0, h1, h2, h3, h4, hold⟩ := CloudToArray.row_written_at A
      (k * F.num_point_feature) q.x q.y q.z (q.intensity / nf)
      ((pc.points_timestamp[k]?).getD 0) (by rw [ihlen, hlen]; omega)
    refine ⟨hl.trans ihlen, ?_⟩
    intro i p hi hp
    by_cases hik : i = k
    · subst hik
      rw [hq] at hp
      simp only [Option.some.injEq] at hp
      subst hp
      exact ⟨h0, h1, h2, h3, h4⟩
    · have hlt : i < k := by omega
      have hbelow : (i + 1) * F.num_point_feature ≤ k * F.num_point_feature :=
        Nat.mul_le_mul_right _ hlt
      rw [Nat.add_mul, Nat.one_mul] at hbelow
      obtain ⟨r0, r1, r2, r3, r4⟩ := ihrows i p hlt hp
      rw [hold _ (by omega), hold _ (by omega), hold _ (by omega), hold _ (by omega),
        hold _ (by omega)]
      exact ⟨r0, r1, r2, r3, r4⟩

/-- `CloudToArray` keeps the length of the array it is given. -/
theorem CloudToArray.length_eq {α : Type} [LinearOrderedField α] (F : Flags α)
    (pc : PointFCloud α) (nf : α) (arr0 : List α) :
    (CloudToArray F pc arr0 nf).length = arr0.length := by
  unfold CloudToArray
  generalize List.range pc.size = l
  induction l generalizing arr0 with
  | nil => rfl
  | cons i rest ih =>
    rw [List.foldl_cons, ih]
    split <;> simp

/-- The cloud and the count the shuffle stage hands on after the fusion stage:
the count is the size of the cloud, the cloud is no larger than the fused
cloud and has one time offset per point. -/
theorem Detect.shuffle_after_fuse {α : Type} [LinearOrderedField α] (E : Env α) (F : Flags α)
    (pose : Affine3 α) (t : α) (cur : PointFCloud α) (buf : List (PointDCloud α))
    (fused : FuseState α)
    (hf : fused = Detect.fuse F pose t (Detect.resetTimestamps cur) (cur.size : Int) buf)
    (hperm : ∀ l, (E.shuffle l).Perm l) (hmax : 0 ≤ F.max_num_points) :
    ∃ cloud : PointFCloud α,
      Detect.shuffle E F fused.cloud fused.num_points = some (cloud, (cloud.size : Int)) ∧
      cloud.size ≤ fused.cloud.size ∧
      cloud.points_timestamp.length = cloud.points.length := by
  have hnum : fused.num_points = (fused.cloud.size : Int) := by
    rw [hf]; exact (Detect.fuse_num_points F _ _ _ _).1
  have hts : fused.cloud.points_timestamp.length = fused.cloud.points.length := by
    rw [hf]; exact (Detect.fuse_num_points F _ _ _ _).2
  by_cases hs : F.enable_shuffle_points = true
  · have hsz := Detect.sampled_size E F fused.cloud hperm hmax
    refine ⟨fused.cloud.copyIndices (E.shuffle ((List.range
      (min (fused.cloud.size : Int) F.max_num_points).toNat).map Int.ofNat)), ?_, ?_, ?_⟩
    · rw [hnum, Detect.shuffle_enabled E F fused.cloud hs hmax, hsz]
    · have hle := min_le_left (fused.cloud.size : Int) F.max_num_points
      rw [← hsz] at hle
      exact_mod_cast hle
    · simp [PointFCloud.copyIndices]
  · exact ⟨fused.cloud, by simp [Detect.shuffle, hs, hnum], le_refl _, hts⟩

/-- C20 fails beyond 32 bits: with `num_point_feature = 2 ^ 30` (at least 5),
shuffle off. On a frame of two points the product of line 171 is `2 ^ 31`,
stored as `-2 ^ 31`: the allocation throws and `Detect` sizes no array and
passes nothing to the engine. On four points the product `2 ^ 32` is stored
as 0: the array has no entry, and the write of line 204 for point 0, at
index `0 * 2 ^ 30 + 0`, is not below its length; the output of `CloudToArray`
has no entry there. -/
theorem Detect_allocation_wraps :
    5 ≤ wideFlags.num_point_feature ∧ 0 ≤ wideFlags.max_num_points ∧
    (Detect realMath exampleTables wideFlags exampleEnv { prev_world_clouds_ := [] }
      (some { exampleFrame 0 with cloud := some exampleCloud2 })).ret = none ∧
    Detect.points_array wideFlags (exampleCloud4.size : Int) = some ([] : List ℝ) ∧
    exampleCloud4.points[0]? = some { x := 1, y := 0, z := 0, intensity := 10 } ∧
    ¬ (0 * wideFlags.num_point_feature + 0
      < (CloudToArray wideFlags exampleCloud4 [] wideFlags.normalizing_factor).length) ∧
    (CloudToArray wideFlags exampleCloud4 [] wideFlags.normalizing_factor)[0]? = none := by
  have hlen := CloudToArray.length_eq wideFlags exampleCloud4 wideFlags.normalizing_factor []
  refine ⟨by decide, by decide, ?_, ?_, rfl, ?_, ?_⟩
  · have ha : Detect.accepted exampleEnv (some { exampleFrame 0 with cloud := some exampleCloud2 })
        = some ({ exampleFrame 0 with cloud := some exampleCloud2 }, exampleCloud2) := by
      simp [Detect.accepted, exampleEnv, exampleCloud2, PointFCloud.size]
    have hinactive : ¬ (wideFlags.enable_fuse_frames = true ∧ wideFlags.num_fuse_frames > 1) := by
      decide
    have hds : Detect.downsample exampleEnv wideFlags exampleCloud2 = (exampleCloud2, true) := by
      simp [Detect.downsample, wideFlags, exampleFlags]
    obtain ⟨fs, hfs⟩ : ∃ fs, fs = Detect.fuse wideFlags
        ({ exampleFrame 0 with cloud := some exampleCloud2 } : LidarFrame ℝ).lidar2world_pose
        ({ exampleFrame 0 with cloud := some exampleCloud2 } : LidarFrame ℝ).timestamp
        (Detect.resetTimestamps (Detect.downsample exampleEnv wideFlags exampleCloud2).1)
        ((Detect.downsample exampleEnv wideFlags exampleCloud2).1.size : Int) [] := ⟨_, rfl⟩
    have hnum : fs.num_points = 2 := by
      rw [hfs, (Detect.fuse_inactive wideFlags _ _ _ _ _ hinactive).2.2, hds]
      rfl
    have hshuffle : Detect.shuffle exampleEnv wideFlags fs.cloud fs.num_points
        = some (fs.cloud, fs.num_points) := by
      simp [Detect.shuffle, wideFlags, exampleFlags]
    rw [Detect.ret_of_accepted realMath exampleTables wideFlags exampleEnv _ _ _ exampleCloud2
      fs.cloud fs.num_points ha (by rw [← hfs]; exact hshuffle), hnum]
    have harr : Detect.points_array wideFlags (2 : Int) = (none : Option (List ℝ)) := by
      simp [Detect.points_array, toInt32, wideFlags, exampleFlags]
    rw [harr]
  · simp [Detect.points_array, toInt32, wideFlags, exampleFlags, exampleCloud4, PointFCloud.size]
  · rw [hlen]
    simp
  · rw [List.getElem?_eq_none (by rw [hlen]; simp)]

/-- C20, as the code has it: in a `Detect` call that passes the checks, whatever
the down-sampling, fusion and shuffle switches, with `num_point_feature ≥ 5`,
`max_num_points ≥ 0`, `std::shuffle` permuting its input, and the product of
the size of the fused cloud and `num_point_feature` below `2 ^ 31` (the
32-bit product of line 171 does not overflow, and the counts themselves fit
an `int`): the shuffle stage hands on a
cloud together with `num_points` equal to its size; line 171 allocates
exactly `num_points * num_point_feature` entries; `Detect` fills them by
`CloudToArray` from that cloud and passes `num_points` to the engine; every
index `i * num_point_feature + j` (`j` in `0..4`) that `CloudToArray` writes
is below the length of the array, and the five values of every point are
found in the output at those indices. -/
theorem Detect_num_points_matches_cloud {α : Type} [LinearOrderedField α] (m : FloatMath α)
    (T : TypeTables) (F : Flags α) (E : Env α) (self : PointPillarsDetection α)
    (frame : Option (LidarFrame α)) (f : LidarFrame α) (c : PointFCloud α)
    (fused : FuseState α)
    (ha : Detect.accepted E frame = some (f, c))
    (hf : fused = Detect.fuse F f.lidar2world_pose f.timestamp
      (Detect.resetTimestamps (Detect.downsample E F c).1)
      ((Detect.downsample E F c).1.size : Int) self.prev_world_clouds_)
    (hperm : ∀ l, (E.shuffle l).Perm l)
    (hw : 5 ≤ F.num_point_feature) (hmax : 0 ≤ F.max_num_points)
    (hfit : (fused.cloud.size : Int) * (F.num_point_feature : Int) < 2 ^ 31) :
    ∃ cloud : PointFCloud α,
      Detect.shuffle E F fused.cloud fused.num_points = some (cloud, (cloud.size : Int)) ∧
      Detect.points_array F (cloud.size : Int)
        = some (List.replicate (cloud.size * F.num_point_feature) 0) ∧
      (Detect m T F E self frame).ret =
        (match GetObjects m F T f.lidar2world_pose
          (E.DoInference (CloudToArray F cloud
            (List.replicate (cloud.size * F.num_point_feature) 0)
            F.normalizing_factor) (cloud.size : Int)).1
          (E.DoInference (CloudToArray F cloud
            (List.replicate (cloud.size * F.num_point_feature) 0)
            F.normalizing_factor) (cloud.size : Int)).2 with
        | Except.ok _ => some true
        | Except.error _ => none) ∧
      (CloudToArray F cloud (List.replicate (cloud.size * F.num_point_feature) 0)
        F.normalizing_factor).length = cloud.size * F.num_point_feature ∧
      (∀ i j, i < cloud.size → j < 5 →
        i * F.num_point_feature + j
          < (CloudToArray F cloud (List.replicate (cloud.size * F.num_point_feature) 0)
              F.normalizing_factor).length) ∧
      ∀ i, i < cloud.size →
        ∃ p t, cloud.points[i]? = some p ∧ cloud.points_timestamp[i]? = some t ∧
          (CloudToArray F cloud (List.replicate (cloud.size * F.num_point_feature) 0)
            F.normalizing_factor)[i * F.num_point_feature + 0]? = some p.x ∧
          (CloudToArray F cloud (List.replicate (cloud.size * F.num_point_feature) 0)
            F.normalizing_factor)[i * F.num_point_feature + 1]? = some p.y ∧
          (CloudToArray F cloud (List.replicate (cloud.size * F.num_point_feature) 0)
            F.normalizing_factor)[i * F.num_point_feature + 2]? = some p.z ∧
          (CloudToArray F cloud (List.replicate (cloud.size * F.num_point_feature) 0)
            F.normalizing_factor)[i * F.num_point_feature + 3]?
              = some (p.intensity / F.normalizing_factor) ∧
          (CloudToArray F cloud (List.replicate (cloud.size * F.num_point_feature) 0)
            F.normalizing_factor)[i * F.num_point_feature + 4]? = some t := by
  obtain ⟨cloud, hcloud, hle, hts⟩ := Detect.shuffle_after_fuse E F f.lidar2world_pose
    f.timestamp (Detect.downsample E F c).1 self.prev_world_clouds_ fused hf hperm hmax
  have hfit2 : (cloud.size : Int) * (F.num_point_feature : Int) < 2 ^ 31 := by
    have h1 : (cloud.size : Int) * (F.num_point_feature : Int)
        ≤ (fused.cloud.size : Int) * (F.num_point_feature : Int) :=
      Int.mul_le_mul_of_nonneg_right (by exact_mod_cast hle) (Int.ofNat_nonneg _)
    omega
  have harr := Detect.points_array_of_fits F cloud.size hfit2
  have hlen := CloudToArray.length_eq F cloud F.normalizing_factor
    (List.replicate (cloud.size * F.num_point_feature) 0)
  rw [List.length_replicate] at hlen
  obtain ⟨-, hrows⟩ := CloudToArray.rows_written_wide F cloud F.normalizing_factor
    (List.replicate (cloud.size * F.num_point_feature) 0) hw
    (by simp [PointFCloud.size]) cloud.points.length (le_refl _)
  refine ⟨cloud, hcloud, harr, ?_, hlen, ?_, ?_⟩
  · rw [Detect.ret_of_accepted m T F E self frame f c cloud (cloud.size : Int) ha
      (by rw [← hf]; exact hcloud), harr]
  · intro i j hi hj
    rw [hlen]
    have h1 : (i + 1) * F.num_point_feature ≤ cloud.size * F.num_point_feature :=
      Nat.mul_le_mul_right _ hi
    rw [Nat.add_mul, Nat.one_mul] at h1
    omega
  · intro i hi
    rw [PointFCloud.size] at hi
    obtain ⟨r0, r1, r2, r3, r4⟩ := hrows i cloud.points[i] hi (List.getElem?_eq_getElem hi)
    have hit : i < cloud.points_timestamp.length := by omega
    rw [List.getElem?_eq_getElem hit] at r4
    refine ⟨cloud.points[i], cloud.points_timestamp[i], List.getElem?_eq_getElem hi,
      List.getElem?_eq_getElem hit, ?_⟩
    unfold CloudToArray
    rw [PointFCloud.size]
    exact ⟨r0, r1, r2, r3, by simpa using r4⟩

/-- C20 amended, on the example frame with one buffered sweep, fusion and
shuffle on and `max_num_points = 1`: the fused cloud has two points, the product
`2 * 5` fits, the cloud handed to `CloudToArray` has one point, `num_points`
is 1 and the array has five entries. -/
theorem Detect_num_points_matches_cloud_witness :
    ((Detect.fuse { fusionFlags 3 1 with enable_shuffle_points := true, max_num_points := 1 }
        (exampleFrame 2).lidar2world_pose (exampleFrame 2).timestamp
        (Detect.resetTimestamps (Detect.downsample exampleEnv
          { fusionFlags 3 1 with enable_shuffle_points := true, max_num_points := 1 }
          exampleCloud).1)
        ((Detect.downsample exampleEnv
          { fusionFlags 3 1 with enable_shuffle_points := true, max_num_points := 1 }
          exampleCloud).1.size : Int)
        [Detect.toWorldCloud Affine3.identity 1 exampleCloud]).cloud.size : Int) * 5
      < 2 ^ 31 ∧
    ∃ cloud : PointFCloud ℝ,
      Detect.shuffle exampleEnv
          { fusionFlags 3 1 with enable_shuffle_points := true, max_num_points := 1 }
          (Detect.fuse { fusionFlags 3 1 with enable_shuffle_points := true, max_num_points := 1 }
            (exampleFrame 2).lidar2world_pose (exampleFrame 2).timestamp
            (Detect.resetTimestamps (Detect.downsample exampleEnv
              { fusionFlags 3 1 with enable_shuffle_points := true, max_num_points := 1 }
              exampleCloud).1)
            ((Detect.downsample exampleEnv
              { fusionFlags 3 1 with enable_shuffle_points := true, max_num_points := 1 }
              exampleCloud).1.size : Int)
            [Detect.toWorldCloud Affine3.identity 1 exampleCloud]).cloud
          (Detect.fuse { fusionFlags 3 1 with enable_shuffle_points := true, max_num_points := 1 }
            (exampleFrame 2).lidar2world_pose (exampleFrame 2).timestamp
            (Detect.resetTimestamps (Detect.downsample exampleEnv
              { fusionFlags 3 1 with enable_shuffle_points := true, max_num_points := 1 }
              exampleCloud).1)
            ((Detect.downsample exampleEnv
              { fusionFlags 3 1 with enable_shuffle_points := true, max_num_points := 1 }
              exampleCloud).1.size : Int)
            [Detect.toWorldCloud Affine3.identity 1 exampleCloud]).num_points
        = some (cloud, (cloud.size : Int)) ∧
      Detect.points_array
          { fusionFlags 3 1 with enable_shuffle_points := true, max_num_points := 1 }
          (cloud.size : Int) = some (List.replicate (cloud.size * 5) 0) ∧
      ∀ i j, i < cloud.size → j < 5 →
        i * 5 + j < (CloudToArray
          { fusionFlags 3 1 with enable_shuffle_points := true, max_num_points := 1 } cloud
          (List.replicate (cloud.size * 5) 0) 1).length := by
  have hfit : ((Detect.fuse
      { fusionFlags 3 1 with enable_shuffle_points := true, max_num_points := 1 }
      (exampleFrame 2).lidar2world_pose (exampleFrame 2).timestamp
      (Detect.resetTimestamps (Detect.downsample exampleEnv
        { fusionFlags 3 1 with enable_shuffle_points := true, max_num_points := 1 }
        exampleCloud).1)
      ((Detect.downsample exampleEnv
        { fusionFlags 3 1 with enable_shuffle_points := true, max_num_points := 1 }
        exampleCloud).1.size : Int)
      [Detect.toWorldCloud Affine3.identity 1 exampleCloud]).cloud.size : Int) * 5
      < 2 ^ 31 := by
    rw [(Detect.fuse_prev_active _ _ _ _ _ _ rfl (by decide)).2, FuseCloud.closed_form]
    norm_num [Detect.evictStale, Detect.toWorldCloud, Detect.resetTimestamps, fusionFlags,
      exampleFrame, exampleCloud, PointFCloud.size, Detect.downsample, exampleFlags,
      exampleEnv]
  obtain ⟨cloud, h1, h2, -, -, h5, -⟩ := Detect_num_points_matches_cloud realMath exampleTables
    { fusionFlags 3 1 with enable_shuffle_points := true, max_num_points := 1 } exampleEnv
    { prev_world_clouds_ := [Detect.toWorldCloud Affine3.identity 1 exampleCloud] }
    (some (exampleFrame 2)) (exampleFrame 2) exampleCloud _ (exampleFrame_accepted 2) rfl
    (fun l => List.Perm.refl l) (by decide) (by decide) hfit
  exact ⟨hfit, cloud, h1, h2, h5⟩

/-! ## Classification -/

/-- A row of zeros with one entry set to 1 sums to 1. -/
theorem sum_replicate_set_one {α : Type} [LinearOrderedField α] :
    ∀ (n k : Nat), k < n → ((List.replicate n (0 : α)).set k 1).sum = 1 := by
  intro n
  induction n with
  | zero => intro k hk; omega
  | succ n ih =>
    intro k hk
    cases k with
    | zero => simp [List.replicate_succ]
    | succ k =>
      rw [List.replicate_succ, List.set_cons_succ, List.sum_cons, ih k (by omega), zero_add]

/-- The classification part of an iteration of `GetObjects` on a fresh object
whose reads are in range. -/
theorem GetObjects.decodeObject_probs {α : Type} [LinearOrderedField α] (m : FloatMath α)
    (F : Flags α) (T : TypeTables) (pose : Affine3 α) (detections : List α)
    (labels : List Int) (i : Nat)
    (hi : i * F.num_output_box_feature + 6 < detections.length) (hl : i < labels.length) :
    ∃ o label,
      GetObjects.decodeObject m F T pose detections labels i Object.fresh = Except.ok o ∧
      labels[i]? = some label ∧
      o.sub_type = GetObjectSubType label ∧
      o.type = T.kSubType2TypeMap o.sub_type ∧
      o.type_probs = (List.replicate T.MAX_OBJECT_TYPE 0).set o.type 1 ∧
      o.lidar_supplement.raw_probs = [o.type_probs] := by
  obtain ⟨x, hx⟩ : ∃ x, detections[i * F.num_output_box_feature + 0]? = some x :=
    ⟨_, List.getElem?_eq_getElem (by omega)⟩
  obtain ⟨y, hy⟩ : ∃ x, detections[i * F.num_output_box_feature + 1]? = some x :=
    ⟨_, List.getElem?_eq_getElem (by omega)⟩
  obtain ⟨z, hz⟩ : ∃ x, detections[i * F.num_output_box_feature + 2]? = some x :=
    ⟨_, List.getElem?_eq_getElem (by omega)⟩
  obtain ⟨dy, hdy⟩ : ∃ x, detections[i * F.num_output_box_feature + 3]? = some x :=
    ⟨_, List.getElem?_eq_getElem (by omega)⟩
  obtain ⟨dx, hdx⟩ : ∃ x, detections[i * F.num_output_box_feature + 4]? = some x :=
    ⟨_, List.getElem?_eq_getElem (by omega)⟩
  obtain ⟨dz, hdz⟩ : ∃ x, detections[i * F.num_output_box_feature + 5]? = some x :=
    ⟨_, List.getElem?_eq_getElem (by omega)⟩
  obtain ⟨yaw_raw, hyaw⟩ : ∃ x, detections[i * F.num_output_box_feature + 6]? = some x :=
    ⟨_, List.getElem?_eq_getElem (by omega)⟩
  obtain ⟨label, hlabel⟩ : ∃ x, labels[i]? = some x :=
    ⟨_, List.getElem?_eq_getElem hl⟩
  have hdec : ∃ o, GetObjects.decodeObject m F T pose detections labels i Object.fresh
        = Except.ok o ∧
      o.sub_type = GetObjectSubType label ∧
      o.type = T.kSubType2TypeMap o.sub_type ∧
      o.type_probs = (List.replicate T.MAX_OBJECT_TYPE 0).set o.type 1 ∧
      o.lidar_supplement.raw_probs = [o.type_probs] := by
    simp only [GetObjects.decodeObject, hx, hy, hz, hdy, hdx, hdz, hyaw, hlabel]
    refine ⟨_, rfl, rfl, rfl, ?_, ?_⟩ <;> simp [Object.fresh]
  obtain ⟨o, ho, h1, h2, h3, h4⟩ := hdec
  exact ⟨o, label, ho, hlabel, h1, h2, h3, h4⟩

/-- C16: for a well-formed detections array (records of width 7) and a class
table whose classes are all below `MAX_OBJECT_TYPE`, every object `i` that
`GetObjects` returns has the sub-type of `labels[i]`, the class the table
gives for it, and a probability vector `type_probs`, equal to the last row of
`raw_probs`, of length `MAX_OBJECT_TYPE`, with entry 1 at the class, entry 0
everywhere else, and sum 1. -/
theorem GetObjects_one_hot {α : Type} [LinearOrderedField α] (m : FloatMath α) (F : Flags α)
    (T : TypeTables) (pose : Affine3 α) (detections : List α) (labels : List Int)
    (hw : F.num_output_box_feature = 7)
    (hlen : detections.length = labels.length * F.num_output_box_feature)
    (hT : ∀ s, T.kSubType2TypeMap s < T.MAX_OBJECT_TYPE) :
    ∃ objs, GetObjects m F T pose detections labels = Except.ok objs ∧
      objs.length = labels.length ∧
      ∀ (i : Nat) (o : Object α), objs[i]? = some o →
        ∃ label, labels[i]? = some label ∧
          o.sub_type = GetObjectSubType label ∧
          o.type = T.kSubType2TypeMap o.sub_type ∧
          o.lidar_supplement.raw_probs.getLast? = some o.type_probs ∧
          o.type_probs.length = T.MAX_OBJECT_TYPE ∧
          o.type_probs[o.type]? = some 1 ∧
          (∀ j, j < T.MAX_OBJECT_TYPE → j ≠ o.type → o.type_probs[j]? = some 0) ∧
          o.type_probs.sum = 1 := by
  rw [hw] at hlen
  have key := GetObjects.loop_ok (GetObjects.decodeObject m F T pose detections labels)
    (fun i o => ∃ label, labels[i]? = some label ∧
      o.sub_type = GetObjectSubType label ∧
      o.type = T.kSubType2TypeMap o.sub_type ∧
      o.type_probs = (List.replicate T.MAX_OBJECT_TYPE 0).set o.type 1 ∧
      o.lidar_supplement.raw_probs = [o.type_probs])
    (List.replicate (detections.length / 7) Object.fresh) 0 []
    (by
      intro k hk obj hobj
      rw [List.length_replicate] at hk
      have hobj2 : obj = Object.fresh := List.eq_of_mem_replicate hobj
      subst hobj2
      have hi : (0 + k) * F.num_output_box_feature + 6 < detections.length := by
        rw [hw]
        have := Nat.div_mul_le_self detections.length 7
        omega
      obtain ⟨o, label, ho, h1, h2, h3, h4, h5⟩ :=
        GetObjects.decodeObject_probs m F T pose detections labels (0 + k) hi (by omega)
      exact ⟨o, ho, label, h1, h2, h3, h4, h5⟩)
  obtain ⟨res, hres, hl, hpost⟩ := key
  refine ⟨res, by simpa [GetObjects, hw] using hres, ?_, ?_⟩
  · rw [hl, List.length_replicate]; omega
  · intro i o hio
    obtain ⟨label, h1, h2, h3, h4, h5⟩ := hpost i o hio
    have hlt : o.type < T.MAX_OBJECT_TYPE := by rw [h3]; exact hT _
    refine ⟨label, by simpa using h1, h2, h3, by rw [h5]; rfl, ?_, ?_, ?_, ?_⟩
    · rw [h4]; simp
    · rw [h4, List.getElem?_set_self (by simpa using hlt)]
    · intro j hj hne
      rw [h4, List.getElem?_set_ne (Ne.symm hne), List.getElem?_replicate_of_lt hj]
    · rw [h4]; exact sum_replicate_set_one _ _ hlt

/-- C16 on the record `(0,0,0,2,4,2,0)` with label 2 and the example table:
sub-type `UNKNOWN_MOVABLE`, class 1, probabilities `[0, 1, 0, 0, 0, 0]`. -/
theorem GetObjects_one_hot_witness :
    ∃ objs o, GetObjects realMath exampleFlags exampleTables Affine3.identity exampleRecord [2]
        = Except.ok objs ∧
      objs[0]? = some o ∧
      o.sub_type = ObjectSubType.UNKNOWN_MOVABLE ∧
      o.type = 1 ∧
      o.type_probs.length = 6 ∧
      o.type_probs[1]? = some 1 ∧
      o.type_probs.sum = 1 := by
  obtain ⟨objs, hok, hl, hpost⟩ := GetObjects_one_hot realMath exampleFlags exampleTables
    Affine3.identity exampleRecord [2] rfl rfl (by intro s; cases s <;> decide)
  have h0 : 0 < objs.length := by rw [hl]; decide
  obtain ⟨label, h1, h2, h3, -, h5, h6, -, h8⟩ := hpost 0 objs[0] (List.getElem?_eq_getElem h0)
  simp only [List.getElem?_cons_zero, Option.some.injEq] at h1
  subst h1
  have hsub : objs[0].sub_type = ObjectSubType.UNKNOWN_MOVABLE := h2
  have htype : objs[0].type = 1 := by rw [h3, hsub]; rfl
  rw [htype] at h6
  exact ⟨objs, objs[0], hok, List.getElem?_eq_getElem h0, hsub, htype, h5, h6, h8⟩

/-! ## Ordered buffer and bounded time offsets -/

/-- With fusion not active a call of `Detect` leaves the buffer as it was. -/
theorem Detect.self_of_inactive {α : Type} [LinearOrderedField α] (m : FloatMath α)
    (T : TypeTables) (F : Flags α) (E : Env α) (self : PointPillarsDetection α)
    (frame : Option (LidarFrame α))
    (h : ¬ (F.enable_fuse_frames = true ∧ F.num_fuse_frames > 1)) :
    (Detect m T F E self frame).self.prev_world_clouds_ = self.prev_world_clouds_ := by
  cases ha : Detect.accepted E frame with
  | none => rw [Detect.self_of_rejected m T F E self frame ha]
  | some a =>
    obtain ⟨f, c⟩ := a
    rw [Detect.self_of_accepted m T F E self frame f c ha]
    exact (Detect.fuse_inactive F _ _ _ _ _ h).1

/-- With fusion not active a sequence of calls leaves the buffer as it was. -/
theorem Detect.run_inactive {α : Type} [LinearOrderedField α] (m : FloatMath α)
    (T : TypeTables) (F : Flags α)
    (h : ¬ (F.enable_fuse_frames = true ∧ F.num_fuse_frames > 1)) :
    ∀ (calls : List (Env α × Option (LidarFrame α))) (self : PointPillarsDetection α),
      (Detect.run m T F self calls).prev_world_clouds_ = self.prev_world_clouds_ := by
  intro calls
  induction calls with
  | nil => intro self; rfl
  | cons call rest ih =>
    intro self
    rw [Detect.run, ih, Detect.self_of_inactive m T F call.1 self call.2 h]

/-- The sweep timestamps of two sequences of calls, one after the other. -/
theorem Detect.sweepTimestamps_append {α : Type} [LinearOrderedField α]
    (pre post : List (Env α × Option (LidarFrame α))) :
    Detect.sweepTimestamps (pre ++ post)
      = Detect.sweepTimestamps pre ++ Detect.sweepTimestamps post := by
  simp [Detect.sweepTimestamps, List.filterMap_append]

/-- The time offsets of the cloud the fusion stage leaves are 0 or the age of a
buffered entry that the stale-entry loop kept. -/
theorem Detect.fuse_offsets {α : Type} [LinearOrderedField α] (F : Flags α)
    (pose : Affine3 α) (t : α) (cur : PointFCloud α) (n : Int) (buf : List (PointDCloud α)) :
    ∀ d ∈ (Detect.fuse F pose t (Detect.resetTimestamps cur) n buf).cloud.points_timestamp,
      d = 0 ∨ ∃ e ∈ Detect.evictStale t F.fuse_time_interval buf, d = t - e.timestamp := by
  intro d hd
  by_cases h : F.enable_fuse_frames = true ∧ F.num_fuse_frames > 1
  · rw [(Detect.fuse_prev_active F pose t _ n buf h.1 h.2).2, FuseCloud.closed_form] at hd
    simp only [Detect.resetTimestamps, List.mem_append, List.mem_replicate, List.mem_flatMap,
      List.mem_reverse, List.mem_map] at hd
    rcases hd with hd | ⟨e, he, _, _, hd⟩
    · exact Or.inl hd.2
    · exact Or.inr ⟨e, he, hd.symm⟩
  · rw [(Detect.fuse_inactive F pose t _ n buf h).2.1] at hd
    exact Or.inl (List.mem_replicate.mp hd).2

/-- C19: for every sequence of `Detect` calls with `fuse_time_interval ≥ 0` and
non-decreasing timestamps of the sweeps that pass the checks, started on an
empty buffer (fusion enabled or not): after every call the buffer is ordered
by non-decreasing timestamp, and in every call that passes the checks every
time offset of the fused cloud lies in `[0, fuse_time_interval]`. -/
theorem Detect_buffer_sorted_offsets_bounded {α : Type} [LinearOrderedField α]
    (m : FloatMath α) (T : TypeTables) (F : Flags α)
    (calls : List (Env α × Option (LidarFrame α)))
    (hage : 0 ≤ F.fuse_time_interval)
    (hsorted : (Detect.sweepTimestamps calls).Pairwise (· ≤ ·)) :
    (∀ pre post, calls = pre ++ post →
      ((Detect.run m T F { prev_world_clouds_ := [] } pre).prev_world_clouds_.map
        fun e => e.timestamp).Pairwise (· ≤ ·)) ∧
    (∀ pre E frame post f c, calls = pre ++ (E, frame) :: post →
      Detect.accepted E frame = some (f, c) →
      ∀ d ∈ (Detect.fuse F f.lidar2world_pose f.timestamp
          (Detect.resetTimestamps (Detect.downsample E F c).1)
          ((Detect.downsample E F c).1.size : Int)
          (Detect.run m T F { prev_world_clouds_ := [] } pre).prev_world_clouds_
        ).cloud.points_timestamp,
        0 ≤ d ∧ d ≤ F.fuse_time_interval) := by
  by_cases h : F.enable_fuse_frames = true ∧ F.num_fuse_frames > 1
  · have hinv : ∀ pre post, calls = pre ++ post →
        ((Detect.run m T F { prev_world_clouds_ := [] } pre).prev_world_clouds_.map
          fun e => e.timestamp) <:+ Detect.sweepTimestamps pre ∧
        (Detect.sweepTimestamps pre).Pairwise (· ≤ ·) := by
      intro pre post hcalls
      have hpre : (Detect.sweepTimestamps pre).Pairwise (· ≤ ·) := by
        rw [hcalls, Detect.sweepTimestamps_append] at hsorted
        exact (List.pairwise_append.mp hsorted).1
      have hrun := Detect.run_fresh m T F h.1 h.2 hage pre { prev_world_clouds_ := [] } []
        (by simp) (by simp) (by simpa using hpre)
      exact ⟨by simpa using hrun.1, hpre⟩
    constructor
    · intro pre post hcalls
      obtain ⟨hsuf, hpre⟩ := hinv pre post hcalls
      exact hpre.sublist hsuf.sublist
    · intro pre E frame post f c hcalls ha d hd
      obtain ⟨hsuf, hpre⟩ := hinv pre ((E, frame) :: post) hcalls
      have hbufSorted := hpre.sublist hsuf.sublist
      have hts : Detect.sweepTimestamps ((E, frame) :: post)
          = f.timestamp :: Detect.sweepTimestamps post := by
        simp [Detect.sweepTimestamps, ha]
      rw [hcalls, Detect.sweepTimestamps_append, hts] at hsorted
      have hle : ∀ a ∈ Detect.sweepTimestamps pre, a ≤ f.timestamp := fun a ha2 =>
        (List.pairwise_append.mp hsorted).2.2 a ha2 f.timestamp (List.mem_cons_self _ _)
      rcases Detect.fuse_offsets F _ _ _ _ _ d hd with rfl | ⟨e, he, rfl⟩
      · exact ⟨le_refl _, hage⟩
      · have hfresh := Detect.evictStale_fresh f.timestamp F.fuse_time_interval _ hbufSorted e he
        have hmem : e ∈ (Detect.run m T F { prev_world_clouds_ := [] } pre).prev_world_clouds_ :=
          (Detect.evictStale_suffix _ _ _).subset he
        have hets : e.timestamp ≤ f.timestamp :=
          hle _ (hsuf.subset (List.mem_map.mpr ⟨e, hmem, rfl⟩))
        exact ⟨by linarith, hfresh⟩
  · have hempty : ∀ pre, (Detect.run m T F { prev_world_clouds_ := [] } pre).prev_world_clouds_
        = [] := fun pre => Detect.run_inactive m T F h pre _
    constructor
    · intro pre post _
      rw [hempty]
      simp
    · intro pre E frame post f c _ _ d hd
      rw [hempty] at hd
      rcases Detect.fuse_offsets F _ _ _ _ _ d hd with rfl | ⟨e, he, rfl⟩
      · exact ⟨le_refl _, hage⟩
      · simp [Detect.evictStale] at he

/-- C19 on sweeps at times 0, 1, 2 with `num_fuse_frames = 3` and
`fuse_time_interval = 1`: the timestamps are non-decreasing, the final buffer
is ordered and the time offsets fused into the third sweep lie in `[0, 1]`. -/
theorem Detect_buffer_sorted_offsets_bounded_witness :
    (Detect.sweepTimestamps
        [(exampleEnv, some (exampleFrame 0)), (exampleEnv, some (exampleFrame 1)),
         (exampleEnv, some (exampleFrame 2))]).Pairwise (· ≤ ·) ∧
    ((Detect.run realMath exampleTables (fusionFlags 3 1) { prev_world_clouds_ := [] }
        [(exampleEnv, some (exampleFrame 0)), (exampleEnv, some (exampleFrame 1)),
         (exampleEnv, some (exampleFrame 2))]).prev_world_clouds_.map
          fun e => e.timestamp).Pairwise (· ≤ ·) ∧
    ∀ d ∈ (Detect.fuse (fusionFlags 3 1) (exampleFrame 2).lidar2world_pose
        (exampleFrame 2).timestamp
        (Detect.resetTimestamps (Detect.downsample exampleEnv (fusionFlags 3 1) exampleCloud).1)
        ((Detect.downsample exampleEnv (fusionFlags 3 1) exampleCloud).1.size : Int)
        (Detect.run realMath exampleTables (fusionFlags 3 1) { prev_world_clouds_ := [] }
          [(exampleEnv, some (exampleFrame 0)),
           (exampleEnv, some (exampleFrame 1))]).prev_world_clouds_).cloud.points_timestamp,
      0 ≤ d ∧ d ≤ (fusionFlags 3 1).fuse_time_interval :=
  have hsorted : (Detect.sweepTimestamps
      [(exampleEnv, some (exampleFrame 0)), (exampleEnv, some (exampleFrame 1)),
       (exampleEnv, some (exampleFrame 2))]).Pairwise (· ≤ ·) := by
    rw [exampleFrame_sweepTimestamps]; norm_num
  have h := Detect_buffer_sorted_offsets_bounded realMath exampleTables (fusionFlags 3 1)
    [(exampleEnv, some (exampleFrame 0)), (exampleEnv, some (exampleFrame 1)),
     (exampleEnv, some (exampleFrame 2))] (by norm_num [fusionFlags]) hsorted
  ⟨hsorted, h.1 _ [] (by simp),
    h.2 [(exampleEnv, some (exampleFrame 0)), (exampleEnv, some (exampleFrame 1))]
      exampleEnv (some (exampleFrame 2)) [] (exampleFrame 2) exampleCloud rfl
      (exampleFrame_accepted 2)⟩

/-! ## The caller's cloud -/

/-- C14 fails on the code: with both down-sampling stages off, fusion on and one
buffered sweep of three points, a successful `Detect` call on a frame whose
cloud has one point leaves four points in `frame->cloud`: `cur_cloud_ptr_` is
the frame's own cloud (line 82), and `FuseCloud` pushes the buffered points
into it. -/
theorem Detect_appends_to_frame_cloud :
    (exampleFrame 2).cloud = some exampleCloud ∧
    exampleCloud.points = [{ x := 1, y := 0, z := 0, intensity := 10 }] ∧
    (Detect realMath exampleTables (fusionFlags 3 1) exampleEnv
      { prev_world_clouds_ := [Detect.toWorldCloud Affine3.identity 1 exampleCloud3] }
      (some (exampleFrame 2))).ret = some true ∧
    (Detect realMath exampleTables (fusionFlags 3 1) exampleEnv
      { prev_world_clouds_ := [Detect.toWorldCloud Affine3.identity 1 exampleCloud3] }
      (some (exampleFrame 2))).frame.bind (fun fr => fr.cloud) =
      some
        { points :=
            [{ x := 1, y := 0, z := 0, intensity := 10 }, { x := 1, y := 0, z := 0, intensity := 10 },
             { x := 2, y := 0, z := 0, intensity := 20 }, { x := 3, y := 0, z := 0, intensity := 30 }]
          points_timestamp := [0, 1, 1, 1] } := by
  have hds : Detect.downsample exampleEnv (fusionFlags 3 1) exampleCloud = (exampleCloud, true) := by
    simp [Detect.downsample, fusionFlags, exampleFlags]
  have hfused : (Detect.fuse (fusionFlags 3 1) (exampleFrame 2).lidar2world_pose
      (exampleFrame 2).timestamp
      (Detect.resetTimestamps (Detect.downsample exampleEnv (fusionFlags 3 1) exampleCloud).1)
      ((Detect.downsample exampleEnv (fusionFlags 3 1) exampleCloud).1.size : Int)
      [Detect.toWorldCloud Affine3.identity 1 exampleCloud3]).cloud =
      { points :=
          [{ x := 1, y := 0, z := 0, intensity := 10 }, { x := 1, y := 0, z := 0, intensity := 10 },
           { x := 2, y := 0, z := 0, intensity := 20 }, { x := 3, y := 0, z := 0, intensity := 30 }]
        points_timestamp := [0, 1, 1, 1] } := by
    rw [(Detect.fuse_prev_active _ _ _ _ _ _ rfl (by decide)).2, FuseCloud.closed_form, hds]
    norm_num [Detect.evictStale, Detect.toWorldCloud, Detect.resetTimestamps, fusionFlags,
      exampleFrame, exampleCloud, exampleCloud3, PointFCloud.size, Affine3.identity,
      Affine3.inverse, Affine3.apply, Matrix3.identity, Matrix3.inverse, Matrix3.det,
      Matrix3.mulVec, List.replicate_succ]
  refine ⟨rfl, rfl, ?_, ?_⟩
  · obtain ⟨fs, hfs⟩ : ∃ fs, fs = Detect.fuse (fusionFlags 3 1) (exampleFrame 2).lidar2world_pose
        (exampleFrame 2).timestamp
        (Detect.resetTimestamps (Detect.downsample exampleEnv (fusionFlags 3 1) exampleCloud).1)
        ((Detect.downsample exampleEnv (fusionFlags 3 1) exampleCloud).1.size : Int)
        [Detect.toWorldCloud Affine3.identity 1 exampleCloud3] := ⟨_, rfl⟩
    have hnum : fs.num_points = (fs.cloud.size : Int) := by
      rw [hfs]; exact (Detect.fuse_num_points _ _ _ _ _).1
    have hshuffle : Detect.shuffle exampleEnv (fusionFlags 3 1) fs.cloud fs.num_points
        = some (fs.cloud, fs.num_points) := by
      simp [Detect.shuffle, fusionFlags, exampleFlags]
    have hsize : fs.cloud.size = 4 := by rw [hfs, hfused]; rfl
    have harr := Detect.points_array_of_fits (fusionFlags 3 1) fs.cloud.size
      (by rw [hsize]; decide)
    rw [Detect.ret_of_accepted realMath exampleTables (fusionFlags 3 1) exampleEnv _ _
      (exampleFrame 2) exampleCloud fs.cloud fs.num_points (exampleFrame_accepted 2)
      (by rw [← hfs]; exact hshuffle), hnum, harr]
    simp [exampleEnv, GetObjects, GetObjects.loop]
  · rw [Detect.frame_cloud_of_accepted _ _ _ _ _ _ _ _ (exampleFrame_accepted 2), hfused, hds]
    simp

end apollo.perception.lidar
